import Mathlib

/-! # OSv: the Java launcher (`java/java.cc`) and the libc time calls (`libc/time.cc`)

A shallow embedding of the two source files and theorems about them.

Conventions of the embedding

* A C string is a `String`: the characters before the terminating NUL.
  A `char*` that may be `NULL` is an `Option String`.
* `int`, `long`, `jint` values are `Int`; unsigned 64-bit values are `Nat`
  reduced modulo `2 ^ 64` wherever the C++ arithmetic can wrap.
* Calls that leave the translated code (the ELF loader, JNI, `debug`, the
  clock, the scheduler) are recorded in a trace of events, and what they
  return is supplied by an environment record.
* A dereference of `NULL` or a call through a null function pointer ends the
  run with a fault.
-/

set_option autoImplicit false

namespace Osv

/-! ## `java/java.cc` -/

/-- The macro `JVM_PATH` (line 20). -/
def JVM_PATH : String := "/usr/lib/jvm/jre/lib/amd64/server/libjvm.so"

/-- The macro `RUNJAVA_PATH` (line 21). -/
def RUNJAVA_PATH : String := "/java/runjava.jar"

/-- The macro `RUNJAVA` (line 22). -/
def RUNJAVA : String := "io/osv/RunJava"

/-- The struct `JavaVMOption` of `jni.h`; `extraInfo` is left null by `mkoption`
and is not represented. -/
structure JavaVMOption where
  optionString : String
  deriving DecidableEq, Repr

/-- The function `mkoption(s)`: a zero-initialised option whose string is a copy of `s`. -/
def mkoption (s : String) : JavaVMOption :=
  { optionString := s }

/-- The function `strlen` of the C library: the number of characters before the terminator. -/
def strlen (s : List Char) : Nat :=
  s.length

/-- The function `strcmp` of the C library on the characters of two strings: the difference
of the first two characters that differ, the end of a string counting as the
NUL character. -/
def strcmp : List Char → List Char → Int
  | [], [] => 0
  | [], b :: _ => 0 - (b.toNat : Int)
  | a :: _, [] => (a.toNat : Int)
  | a :: s, b :: t => if a = b then strcmp s t else (a.toNat : Int) - (b.toNat : Int)

/-- The function `strncmp` of the C library: as `strcmp`, but at most `n` characters are
compared. -/
def strncmp : List Char → List Char → Nat → Int
  | _, _, 0 => 0
  | [], [], _ + 1 => 0
  | [], b :: _, _ + 1 => 0 - (b.toNat : Int)
  | a :: _, [], _ + 1 => (a.toNat : Int)
  | a :: s, b :: t, n + 1 =>
    if a = b then strncmp s t n else (a.toNat : Int) - (b.toNat : Int)

/-- The function `starts_with(s, prefix)`: `!strncmp(s, prefix, strlen(prefix))`. -/
def starts_with (s pfx : String) : Bool :=
  strncmp s.data pfx.data (strlen pfx.data) == 0

/-- The function `is_jvm_option(arg)` (lines 36-42). -/
def is_jvm_option (arg : String) : Bool :=
  starts_with arg "-verbose" ||
  starts_with arg "-D" ||
  starts_with arg "-X" ||
  starts_with arg "-javaagent" ||
  starts_with arg "-agentlib"

/-- The variables of `main` that the option scan reads and writes: the argument
vector (an entry is `none` once it has been set to `NULL`), the vector
`options`, and `argc`. -/
structure ScanState where
  argv : List (Option String)
  options : List JavaVMOption
  argc : Int
  deriving DecidableEq, Repr

/-- The loop `for (int i = 1; i < orig_argc; i++)` of lines 62-74, entered at
index `i` with `n` iterations left (`n = orig_argc - i`).  The result is `none`
when `argv[i]` is `NULL` or lies outside the vector, where `strcmp` would
dereference an invalid pointer. -/
def scanLoop : Nat → Nat → ScanState → Option ScanState
  | 0, _, st => some st
  | n + 1, i, st =>
    match st.argv.get? i with
    | some (some a) =>
      if strcmp a.data "-jar".data == 0 || !starts_with a "-" then
        some st
      else if is_jvm_option a then
        scanLoop n (i + 1)
          { argv := st.argv.set i none
            options := st.options ++ [mkoption a]
            argc := st.argc - 1 }
      else
        scanLoop n (i + 1) st
    | _ => none

/-- Calls that leave `main`, in the order they are made, and the diagnostics
written with `debug`. -/
inductive Event where
  | get_library (path : String)
  | lookup_function (name : String)
  | JNI_GetDefaultJavaVMInitArgs
  | JNI_CreateJavaVM (nOptions : Int) (options : List JavaVMOption)
  | FindClass (name : String)
  | GetStaticMethodID (cls name sig : String)
  | NewObjectArray (len : Int)
  | SetObjectArrayElement (index : Int) (value : String)
  | CallStaticVoidMethod (cls name : String) (args : Option (List (Option String)))
  | DetachCurrentThread
  | DestroyJavaVM
  | debug (msg : String)
  deriving DecidableEq, Repr

/-- What the collaborators of `main` answer: whether `get_library` returns a
non-null handle for a path, whether `lookup_function` resolves a name to a
non-null pointer, the status `JNI_CreateJavaVM` returns for the options it is
handed, and whether `FindClass` and `GetStaticMethodID` return non-null. -/
structure Env where
  get_library : String → Bool
  lookup_function : String → Bool
  JNI_CreateJavaVM : Int → List JavaVMOption → Int
  FindClass : String → Bool
  GetStaticMethodID : String → String → String → Bool

/-- How a run of `main` ends: it returns an exit code, or it faults (a call
through a null function pointer, a dereference of `NULL`). -/
inductive Outcome where
  | exit (code : Int)
  | fault (what : String)
  deriving DecidableEq, Repr

/-- A run of `main`: the calls it made and how it ended. -/
structure Run where
  trace : List Event
  outcome : Outcome
  deriving DecidableEq, Repr

/-- The conversion of `options.size()` (a `size_t`) to the `jint` field
`nOptions`: the low 32 bits, read as a signed number. -/
def toJint (n : Nat) : Int :=
  if n % 2 ^ 32 < 2 ^ 31 then ((n % 2 ^ 32 : Nat) : Int) else ((n % 2 ^ 32 : Nat) : Int) - 2 ^ 32

/-- The call `NewObjectArray(len, stringclass, nullptr)` of JNI: an array of `len` null
elements, or `NULL` when `len` is negative. -/
def NewObjectArray (len : Int) : Option (List (Option String)) :=
  if len < 0 then none else some (List.replicate len.toNat none)

/-- The call `SetObjectArrayElement(args, index, value)` of JNI: the element is stored
when the array exists and the index lies inside it; otherwise nothing is
stored. -/
def SetObjectArrayElement (args : Option (List (Option String))) (index : Int)
    (value : String) : Option (List (Option String)) :=
  match args with
  | none => none
  | some arr => if 0 ≤ index ∧ index < arr.length then some (arr.set index.toNat (some value)) else some arr

/-- The variables of the marshalling loop: `index`, the Java array `args`, and
the JNI calls made so far. -/
structure MarshalState where
  index : Int
  args : Option (List (Option String))
  calls : List Event
  deriving DecidableEq, Repr

/-- The loop `for (int i = 1; i < orig_argc; i++)` of lines 107-111, entered at
index `i` with `n` iterations left.  The result is `none` when `argv[i]` lies
outside the vector. -/
def marshalLoop (argv : List (Option String)) : Nat → Nat → MarshalState → Option MarshalState
  | 0, _, st => some st
  | n + 1, i, st =>
    match argv.get? i with
    | some none => marshalLoop argv n (i + 1) st
    | some (some a) =>
      marshalLoop argv n (i + 1)
        { index := st.index + 1
          args := SetObjectArrayElement st.args st.index a
          calls := st.calls ++ [Event.SetObjectArrayElement st.index a] }
    | none => none

/-- The function `main(argc, argv)` of `java.cc` (lines 45-120), with `argc`
the length of `argv` and every entry of `argv` non-null.  The handle
`get_library` returns is kept in `jvm_so` and not looked at again; the pointer
`lookup_function` returns for `JNI_GetDefaultJavaVMInitArgs` is called without
a test, the one for `JNI_CreateJavaVM` is tested first.  `NewStringUTF` is
taken to give a Java string with the characters of its argument. -/
def main (env : Env) (argv : List String) : Run :=
  let t0 := [Event.get_library JVM_PATH, Event.lookup_function "JNI_GetDefaultJavaVMInitArgs"]
  if !env.lookup_function "JNI_GetDefaultJavaVMInitArgs" then
    ⟨t0, Outcome.fault "call through the null pointer JNI_GetDefaultJavaVMInitArgs"⟩
  else
    let t1 := t0 ++ [Event.JNI_GetDefaultJavaVMInitArgs]
    let options := [mkoption ("-Djava.class.path=" ++ RUNJAVA_PATH),
      mkoption "-Djava.system.class.loader=io.osv.OsvSystemClassLoader"]
    let orig_argc := argv.length
    match scanLoop (orig_argc - 1) 1 ⟨argv.map some, options, orig_argc⟩ with
    | none => ⟨t1, Outcome.fault "strcmp on an invalid argv entry"⟩
    | some scanned =>
      let nOptions := toJint scanned.options.length
      let t2 := t1 ++ [Event.lookup_function "JNI_CreateJavaVM"]
      if !env.lookup_function "JNI_CreateJavaVM" then
        ⟨t2 ++ [Event.debug "java.so: failed looking up JNI_CreateJavaVM()\n"], Outcome.exit 1⟩
      else
        let t3 := t2 ++ [Event.JNI_CreateJavaVM nOptions scanned.options]
        if env.JNI_CreateJavaVM nOptions scanned.options != 0 then
          ⟨t3 ++ [Event.debug "java.so: Can't create VM.\n"], Outcome.exit 1⟩
        else
          let t4 := t3 ++ [Event.FindClass RUNJAVA]
          if !env.FindClass RUNJAVA then
            ⟨t4 ++ [Event.debug ("java.so: Can't find class " ++ RUNJAVA ++ " in "
              ++ RUNJAVA_PATH ++ ".\n")], Outcome.exit 1⟩
          else
            let t5 := t4 ++ [Event.GetStaticMethodID RUNJAVA "main" "([Ljava/lang/String;)V"]
            if !env.GetStaticMethodID RUNJAVA "main" "([Ljava/lang/String;)V" then
              ⟨t5 ++ [Event.debug ("java.so: Can't find main() in class " ++ RUNJAVA ++ ".\n")],
                Outcome.exit 1⟩
            else
              let t6 := t5 ++ [Event.FindClass "java/lang/String",
                Event.NewObjectArray (scanned.argc - 1)]
              match marshalLoop scanned.argv (orig_argc - 1) 1
                  ⟨0, NewObjectArray (scanned.argc - 1), []⟩ with
              | none => ⟨t6, Outcome.fault "read outside argv"⟩
              | some m =>
                ⟨t6 ++ m.calls ++ [Event.CallStaticVoidMethod RUNJAVA "main" m.args,
                  Event.DetachCurrentThread, Event.DestroyJavaVM], Outcome.exit 0⟩

/-! ## `libc/time.cc` -/

/-- The struct `timespec`: `tv_sec` is a `time_t` and `tv_nsec` a `long`, both
signed 64-bit. -/
structure timespec where
  tv_sec : Int
  tv_nsec : Int
  deriving DecidableEq, Repr

/-- The struct `timeval`: `tv_sec` is a `time_t` and `tv_usec` a `suseconds_t`,
both signed 64-bit. -/
structure timeval where
  tv_sec : Int
  tv_usec : Int
  deriving DecidableEq, Repr

/-- The struct `timezone`. -/
structure timezone where
  tz_minuteswest : Int
  tz_dsttime : Int
  deriving DecidableEq, Repr

/-- The constant `CLOCK_REALTIME` of `<time.h>`. -/
def CLOCK_REALTIME : Int := 0

/-- The constant `CLOCK_MONOTONIC` of `<time.h>`. -/
def CLOCK_MONOTONIC : Int := 1

/-- The constant `EINVAL` of `<errno.h>`. -/
def EINVAL : Int := 22

/-- What the time calls see of the kernel: the reading `clock::get()->time()`
gives (`now`, an unsigned 64-bit count of nanoseconds), the scheduler
(`wake now deadline` is the clock reading at which
`sched::thread::sleep_until(deadline)`, called at reading `now`, returns), and
`errno`.  `reads` counts the clock reads made so far and `sleeps` lists the
deadlines handed to `sleep_until` so far. -/
structure Kernel where
  now : Nat
  wake : Nat → Nat → Nat
  errno : Int
  reads : Nat
  sleeps : List Nat

/-- The call `clock::get()->time()`: the reading, and the kernel with the read counted. -/
def Kernel.time (k : Kernel) : Nat × Kernel :=
  (k.now, { k with reads := k.reads + 1 })

/-- The call `sched::thread::sleep_until(deadline)`: the deadline is recorded and the
call returns when the scheduler wakes the thread. -/
def Kernel.sleep_until (k : Kernel) (deadline : Nat) : Kernel :=
  { k with now := k.wake k.now deadline, sleeps := k.sleeps ++ [deadline] }

/-- What a call leaves behind: the value it returns, the object its output
pointer designates (`none` for a null pointer), and the kernel. -/
structure Call (α : Type) where
  ret : Int
  out : Option α
  kernel : Kernel

/-- Modelled from the spec: `libc_error` is declared in `libc.hh`, which is not
among the sources; it reports an error to the caller of a libc function by
storing the error number in `errno` and returning the error result `-1`,
writing nothing else. -/
def libc_error {α : Type} (err : Int) (out : Option α) (k : Kernel) : Call α :=
  { ret := -1, out := out, kernel := { k with errno := err } }

/-- The conversion of an unsigned 64-bit value to a signed 64-bit type
(`time_t`, `long`): the same 64 bits, read as a signed number. -/
def toLong (n : Nat) : Int :=
  if n % 2 ^ 64 < 2 ^ 63 then ((n % 2 ^ 64 : Nat) : Int) else ((n % 2 ^ 64 : Nat) : Int) - 2 ^ 64

/-- The function `convert(ts)`: `ts.tv_sec * 1000000000 + ts.tv_nsec`, computed in the signed
64-bit type of the fields and returned as `u64`.  The arithmetic is taken to
wrap, as the two's complement multiply and add of the machine do, so the `u64`
returned is the mathematical value modulo `2 ^ 64`. -/
def convert (ts : timespec) : Nat :=
  ((ts.tv_sec * 1000000000 + ts.tv_nsec) % 2 ^ 64).toNat

/-- The function `gettimeofday(tv, tz)` (lines 23-34). -/
def gettimeofday (k : Kernel) (tv : Option timeval) (_tz : Option timezone) : Call timeval :=
  match tv with
  | none => { ret := 0, out := none, kernel := k }
  | some _ =>
    let time := k.time.1
    let sec := time / 1000000000
    let nsec := time % 1000000000
    { ret := 0, out := some { tv_sec := toLong sec, tv_usec := toLong (nsec / 1000) },
      kernel := k.time.2 }

/-- The function `nanosleep(req, rem)`; `out` is the object `rem` designates.  The result is
`none` when `req` is null, which `convert(*req)` dereferences. -/
def nanosleep (k : Kernel) (req : Option timespec) (rem : Option timespec) :
    Option (Call timespec) :=
  match req with
  | none => none
  | some r =>
    let time := k.time.1
    some { ret := 0, out := rem,
           kernel := k.time.2.sleep_until ((time + convert r) % 2 ^ 64) }

/-- The function `clock_gettime(clk_id, ts)`.  The result is `none` when `ts` is null and
the identifier is `CLOCK_REALTIME`, where `ts->tv_sec = sec` writes through the
null pointer. -/
def clock_gettime (k : Kernel) (clk_id : Int) (ts : Option timespec) :
    Option (Call timespec) :=
  if clk_id ≠ CLOCK_REALTIME then
    some (libc_error EINVAL ts k)
  else
    let time := k.time.1
    let sec := time / 1000000000
    let nsec := time % 1000000000
    match ts with
    | none => none
    | some _ =>
      some { ret := 0, out := some { tv_sec := toLong sec, tv_nsec := toLong nsec },
             kernel := k.time.2 }

/-- The function `clock_getres(clk_id, ts)` (lines 64-76). -/
def clock_getres (k : Kernel) (clk_id : Int) (ts : Option timespec) : Call timespec :=
  if clk_id ≠ CLOCK_REALTIME then
    libc_error EINVAL ts k
  else
    match ts with
    | some _ => { ret := 0, out := some { tv_sec := 0, tv_nsec := 1 }, kernel := k }
    | none => { ret := 0, out := none, kernel := k }


/-- The function `usleep(usec)` (lines 42-46): the deadline handed to the
scheduler is `clock::get()->time() + usec * 1_us`.  The literal `1_us` is
defined in the clock header, which is not among the sources; its value, an
unsigned 64-bit count of nanoseconds, is the parameter `one_us`.  The operand
`usec` is a `useconds_t` (unsigned 32-bit) and is converted to the 64-bit type
of `1_us`, so the product and the sum are computed modulo `2 ^ 64`. -/
def usleep (one_us : Nat) (k : Kernel) (usec : Nat) : Call Unit :=
  let time := k.time.1
  { ret := 0, out := none,
    kernel := k.time.2.sleep_until ((time + usec * one_us % 2 ^ 64) % 2 ^ 64) }

/-- The constant `ENOSYS` of `<errno.h>`. -/
def ENOSYS : Int := 38

/-- The function `clock_getcpuclockid(pid, clock_id)` (lines 78-81); `out` is the
object `clock_id` designates. -/
def clock_getcpuclockid (k : Kernel) (_pid : Int) (clock_id : Option Int) : Call Int :=
  libc_error ENOSYS clock_id k

/-! ## Auxiliary definitions for the statements -/

/-- The test of line 65 that ends the option scan at an argument. -/
def scanStops (a : String) : Bool :=
  strcmp a.data "-jar".data == 0 || !starts_with a "-"

/-- The strings handed to `SetObjectArrayElement` in a trace, in call order. -/
def storedStrings : List Event → List String
  | [] => []
  | Event.SetObjectArrayElement _ v :: r => v :: storedStrings r
  | _ :: r => storedStrings r

/-- The calls `SetObjectArrayElement(args, start, v0)`,
`SetObjectArrayElement(args, start + 1, v1)`, ... for the values `v0, v1, ...`. -/
def setCalls : Nat → List String → List Event
  | _, [] => []
  | start, v :: vs => Event.SetObjectArrayElement start v :: setCalls (start + 1) vs

/-- The arguments after `argv[0]` that the option scan leaves in place: those
before the argument that stops the scan which are not JVM options, and
everything from that argument on. -/
def forwarded (rest : List String) : List String :=
  (rest.takeWhile (fun a => !scanStops a)).filter (fun a => !is_jvm_option a)
    ++ rest.dropWhile (fun a => !scanStops a)

/-- The arguments after `argv[0]` that the option scan hands to the JVM: the
JVM options before the argument that stops the scan. -/
def consumed (rest : List String) : List String :=
  (rest.takeWhile (fun a => !scanStops a)).filter is_jvm_option

/-- The `(nOptions, options)` pairs handed to `JNI_CreateJavaVM` in a trace, in
call order. -/
def createCalls : List Event → List (Int × List JavaVMOption)
  | [] => []
  | Event.JNI_CreateJavaVM n o :: r => (n, o) :: createCalls r
  | _ :: r => createCalls r

/-- The argument arrays handed to the entry method in a trace, in call order. -/
def entryCalls : List Event → List (Option (List (Option String)))
  | [] => []
  | Event.CallStaticVoidMethod _ _ args :: r => args :: entryCalls r
  | _ :: r => entryCalls r

/-- The diagnostics written with `debug` in a trace, in order. -/
def debugs : List Event → List String
  | [] => []
  | Event.debug msg :: r => msg :: debugs r
  | _ :: r => debugs r

/-- The two options `main` always hands to the JVM (lines 58-59). -/
def fixedOptions : List JavaVMOption :=
  [mkoption ("-Djava.class.path=" ++ RUNJAVA_PATH),
   mkoption "-Djava.system.class.loader=io.osv.OsvSystemClassLoader"]

/-- An environment in which every step of the launch succeeds. -/
def envReady : Env :=
  { get_library := fun _ => true
    lookup_function := fun _ => true
    JNI_CreateJavaVM := fun _ _ => 0
    FindClass := fun _ => true
    GetStaticMethodID := fun _ _ _ => true }

/-- An environment in which `libjvm.so` cannot be loaded, so that neither JNI
entry point resolves. -/
def envNoLibrary : Env :=
  { envReady with
    get_library := fun path => path != JVM_PATH
    lookup_function := fun _ => false }

/-- An environment in which `libjvm.so` is loaded but does not export
`JNI_GetDefaultJavaVMInitArgs`. -/
def envNoInitArgs : Env :=
  { envReady with lookup_function := fun name => name != "JNI_GetDefaultJavaVMInitArgs" }

/-- An environment in which `libjvm.so` is loaded but does not export
`JNI_CreateJavaVM`. -/
def envNoCreate : Env :=
  { envReady with lookup_function := fun name => name != "JNI_CreateJavaVM" }

/-- The status `JNI_CreateJavaVM` returns for the options `main` hands it on
`argv`: the fixed options followed by the arguments the option scan consumed. -/
def creationStatus (env : Env) (argv : List String) : Int :=
  env.JNI_CreateJavaVM (toJint (fixedOptions ++ (consumed argv.tail).map mkoption).length)
    (fixedOptions ++ (consumed argv.tail).map mkoption)

/-- A kernel whose clock reads `t`, with a scheduler that wakes a sleeper at its
deadline, or at once when the deadline has passed. -/
def kernelAt (t : Nat) : Kernel :=
  { now := t
    wake := fun now deadline => max now deadline
    errno := 0
    reads := 0
    sleeps := [] }

/-- The indices handed to `SetObjectArrayElement` in a list of calls, in call
order. -/
def setIndices : List Event → List Int
  | [] => []
  | Event.SetObjectArrayElement i _ :: r => i :: setIndices r
  | _ :: r => setIndices r

/-- An environment in which the JVM starts and the class `io/osv/RunJava` is
found, but the class has no static method `main([Ljava/lang/String;)V`. -/
def envNoMethod : Env :=
  { envReady with GetStaticMethodID := fun _ _ _ => false }

/-! # Theorems -/

/-! ## Lemmas on the C string functions -/

theorem char_toNat_inj {a b : Char} (h : a.toNat = b.toNat) : a = b := by
  rw [← Char.ofNat_toNat a, ← Char.ofNat_toNat b, h]

theorem strcmp_eq_zero_iff (s t : List Char)
    (hs : ∀ c ∈ s, c.toNat ≠ 0) (ht : ∀ c ∈ t, c.toNat ≠ 0) :
    strcmp s t = 0 ↔ s = t := by
  induction s generalizing t with
  | nil =>
    cases t with
    | nil => simp [strcmp]
    | cons b t =>
      have hb := ht b (List.mem_cons_self _ _)
      simp [strcmp]
      omega
  | cons a s ih =>
    cases t with
    | nil =>
      have ha := hs a (List.mem_cons_self _ _)
      simp [strcmp]
      omega
    | cons b t =>
      have hs' : ∀ c ∈ s, c.toNat ≠ 0 := fun c hc => hs c (List.mem_cons_of_mem _ hc)
      have ht' : ∀ c ∈ t, c.toNat ≠ 0 := fun c hc => ht c (List.mem_cons_of_mem _ hc)
      by_cases hab : a = b
      · subst hab
        simp [strcmp, ih t hs' ht']
      · have hne : a.toNat ≠ b.toNat := fun h => hab (char_toNat_inj h)
        simp [strcmp, hab]
        omega

theorem strncmp_length_eq_zero_iff (p s : List Char) (hp : ∀ c ∈ p, c.toNat ≠ 0) :
    strncmp s p p.length = 0 ↔ p <+: s := by
  induction p generalizing s with
  | nil => simp [strncmp]
  | cons b p ih =>
    have hb := hp b (List.mem_cons_self _ _)
    have hp' : ∀ c ∈ p, c.toNat ≠ 0 := fun c hc => hp c (List.mem_cons_of_mem _ hc)
    cases s with
    | nil =>
      simp [strncmp]
      omega
    | cons a s =>
      by_cases hab : a = b
      · subst hab
        simp [strncmp, ih s hp', List.cons_prefix_cons]
      · have hne : a.toNat ≠ b.toNat := fun h => hab (char_toNat_inj h)
        have hba : ¬ b = a := fun h => hab h.symm
        simp [strncmp, hab, hba, List.cons_prefix_cons]
        omega

theorem starts_with_iff (s pfx : String) (hp : ∀ c ∈ pfx.data, c.toNat ≠ 0) :
    starts_with s pfx = true ↔ pfx.data <+: s.data := by
  unfold starts_with strlen
  rw [beq_iff_eq]
  exact strncmp_length_eq_zero_iff pfx.data s.data hp

theorem scanStops_iff (a : String) (ha : ∀ c ∈ a.data, c.toNat ≠ 0) :
    scanStops a = true ↔ (a = "-jar" ∨ ¬ "-".data <+: a.data) := by
  have h1 : strcmp a.data "-jar".data = 0 ↔ a.data = "-jar".data :=
    strcmp_eq_zero_iff _ _ ha (by decide)
  have h2 : starts_with a "-" = true ↔ "-".data <+: a.data :=
    starts_with_iff a "-" (by decide)
  have h3 : a.data = "-jar".data ↔ a = "-jar" := by
    constructor
    · intro h; exact String.ext h
    · intro h; rw [h]
  rw [← h3, ← h1, ← h2]
  simp [scanStops]

/-! ## The option scan and the marshalling loop -/

theorem scanLoop_eq (rest : List String) :
    ∀ (pre : List (Option String)) (opts : List JavaVMOption) (c : Int),
    scanLoop rest.length pre.length ⟨pre ++ rest.map some, opts, c⟩ =
      some ⟨pre ++ ((rest.takeWhile (fun a => !scanStops a)).map
                (fun a => if is_jvm_option a then none else some a)
              ++ (rest.dropWhile (fun a => !scanStops a)).map some),
            opts ++ ((rest.takeWhile (fun a => !scanStops a)).filter is_jvm_option).map mkoption,
            c - (((rest.takeWhile (fun a => !scanStops a)).filter is_jvm_option).length : Int)⟩ := by
  induction rest with
  | nil => intro pre opts c; simp [scanLoop]
  | cons a r ih =>
    intro pre opts c
    have hget : (pre ++ (some a :: r.map some)).get? pre.length = some (some a) := by
      rw [List.get?_eq_getElem?, List.getElem?_append_right (le_refl _)]
      simp
    by_cases hs : scanStops a = true
    · have hs' : (strcmp a.data "-jar".data == 0 || !starts_with a "-") = true := hs
      simp only [List.length_cons, List.map_cons, scanLoop, hget, hs', if_true]
      simp [hs]
    · have hs' : (strcmp a.data "-jar".data == 0 || !starts_with a "-") = false := by
        simpa [scanStops] using hs
      have hs2 : scanStops a = false := by simpa using hs
      by_cases hj : is_jvm_option a = true
      · have hset : (pre ++ (some a :: r.map some)).set pre.length none
            = (pre ++ [none]) ++ r.map some := by
          simp
        have := ih (pre ++ [none]) (opts ++ [mkoption a]) (c - 1)
        simp only [List.length_append, List.length_singleton] at this
        simp only [List.length_cons, List.map_cons, scanLoop, hget, hs', hj, if_true, hset]
        rw [this]
        simp [hs2, hj]
        omega
      · have hj2 : is_jvm_option a = false := by simpa using hj
        have := ih (pre ++ [some a]) opts c
        simp only [List.length_append, List.length_singleton] at this
        have hre : pre ++ (some a :: r.map some) = (pre ++ [some a]) ++ r.map some := by simp
        simp only [List.length_cons, List.map_cons, scanLoop, hget, hs', hj2]
        rw [hre, this]
        simp [hs2, hj2]

theorem marshalLoop_eq (l : List (Option String)) :
    ∀ (pre done : List (Option String)) (m : Nat) (calls : List Event),
    l.reduceOption.length ≤ m →
    marshalLoop (pre ++ l) l.length pre.length
        ⟨done.length, some (done ++ List.replicate m none), calls⟩ =
      some ⟨(done.length + l.reduceOption.length : Nat),
            some (done ++ l.reduceOption.map some ++
              List.replicate (m - l.reduceOption.length) none),
            calls ++ setCalls done.length l.reduceOption⟩ := by
  induction l with
  | nil => intro pre done m calls _; simp [marshalLoop, setCalls]
  | cons x l ih =>
    intro pre done m calls hm
    have hget : (pre ++ x :: l).get? pre.length = some x := by
      rw [List.get?_eq_getElem?, List.getElem?_append_right (le_refl _)]
      simp
    have hre : pre ++ x :: l = (pre ++ [x]) ++ l := by simp
    cases x with
    | none =>
      have hm' : l.reduceOption.length ≤ m := by
        simpa [List.reduceOption_cons_of_none] using hm
      have := ih (pre ++ [none]) done m calls hm'
      simp only [List.length_append, List.length_singleton] at this
      simp only [List.length_cons, marshalLoop, hget]
      rw [hre, this]
      simp [List.reduceOption_cons_of_none]
    | some a =>
      rw [List.reduceOption_cons_of_some] at hm ⊢
      simp only [List.length_cons] at hm
      obtain ⟨m', rfl⟩ : ∃ m', m = m' + 1 := ⟨m - 1, by omega⟩
      have hm' : l.reduceOption.length ≤ m' := by omega
      have hset : SetObjectArrayElement (some (done ++ List.replicate (m' + 1) none))
          (done.length : Int) a = some ((done ++ [some a]) ++ List.replicate m' none) := by
        have hlt : (done.length : Int) < ((done ++ List.replicate (m' + 1) none).length : Int) := by
          rw [List.length_append, List.length_replicate]
          omega
        simp only [SetObjectArrayElement]
        rw [if_pos ⟨Int.natCast_nonneg _, hlt⟩]
        simp [List.replicate_succ]
      have := ih (pre ++ [some a]) (done ++ [some a]) m'
        (calls ++ [Event.SetObjectArrayElement done.length a]) hm'
      simp only [List.length_append, List.length_singleton] at this
      simp only [List.length_cons, marshalLoop, hget, hset]
      rw [hre]
      have hidx : ((done.length : Int) + 1) = ((done.length + 1 : Nat) : Int) := by simp
      rw [hidx, this]
      simp [setCalls]
      omega

theorem reduceOption_scanned (h t : List String) :
    (h.map (fun a => if is_jvm_option a then none else some a) ++ t.map some).reduceOption
      = h.filter (fun a => !is_jvm_option a) ++ t := by
  induction h with
  | nil =>
    induction t with
    | nil => simp
    | cons b t iht => simpa [List.reduceOption_cons_of_some] using iht
  | cons a h ih =>
    by_cases hj : is_jvm_option a = true
    · simpa [hj, List.reduceOption_cons_of_none] using ih
    · have hj2 : is_jvm_option a = false := by simpa using hj
      simpa [hj2, List.reduceOption_cons_of_some] using ih

theorem length_forwarded_add_consumed (rest : List String) :
    (forwarded rest).length + (consumed rest).length = rest.length := by
  have h1 := List.takeWhile_append_dropWhile (fun a => !scanStops a) rest
  have h2 : ∀ l : List String, (l.filter (fun a => !is_jvm_option a)).length
      + (l.filter is_jvm_option).length = l.length := by
    intro l
    induction l with
    | nil => simp
    | cons a l ih =>
      by_cases hj : is_jvm_option a = true
      · simp [hj]; omega
      · have hj2 : is_jvm_option a = false := by simpa using hj
        simp [hj2]; omega
  have h3 := congrArg List.length h1
  rw [List.length_append] at h3
  have h4 := h2 (rest.takeWhile (fun a => !scanStops a))
  simp only [forwarded, consumed, List.length_append]
  omega

/-- The option scan of `main` on `argv = a0 :: rest`. -/
theorem main_scan (a0 : String) (rest : List String) (opts : List JavaVMOption) :
    scanLoop ((a0 :: rest).length - 1) 1
        ⟨(a0 :: rest).map some, opts, ((a0 :: rest).length : Nat)⟩ =
      some ⟨some a0 :: ((rest.takeWhile (fun a => !scanStops a)).map
                (fun a => if is_jvm_option a then none else some a)
              ++ (rest.dropWhile (fun a => !scanStops a)).map some),
            opts ++ (consumed rest).map mkoption,
            ((forwarded rest).length : Int) + 1⟩ := by
  have h := scanLoop_eq rest [some a0] opts ((a0 :: rest).length : Nat)
  have hl := length_forwarded_add_consumed rest
  have h1 : [some a0].length = 1 := rfl
  rw [h1] at h
  simp only [List.singleton_append, List.length_cons] at h
  simp only [List.length_cons, Nat.add_sub_cancel, List.map_cons]
  rw [h]
  simp only [consumed, List.length_cons]
  congr 2
  simp only [consumed] at hl
  push_cast
  omega

/-- The marshalling loop of `main` on the vector the option scan leaves. -/
theorem main_marshal (a0 : String) (rest : List String) :
    marshalLoop (some a0 :: ((rest.takeWhile (fun a => !scanStops a)).map
                (fun a => if is_jvm_option a then none else some a)
              ++ (rest.dropWhile (fun a => !scanStops a)).map some))
        ((a0 :: rest).length - 1) 1
        ⟨0, NewObjectArray (((forwarded rest).length : Int) + 1 - 1), []⟩ =
      some ⟨((forwarded rest).length : Nat), some ((forwarded rest).map some),
            setCalls 0 (forwarded rest)⟩ := by
  have hred := reduceOption_scanned (rest.takeWhile (fun a => !scanStops a))
    (rest.dropWhile (fun a => !scanStops a))
  have hlen : ((rest.takeWhile (fun a => !scanStops a)).map
                (fun a => if is_jvm_option a then none else some a)
              ++ (rest.dropWhile (fun a => !scanStops a)).map some).length = rest.length := by
    rw [List.length_append, List.length_map, List.length_map, ← List.length_append,
      List.takeWhile_append_dropWhile]
  have h := marshalLoop_eq _ [some a0] [] (forwarded rest).length []
    (le_of_eq (congrArg List.length hred))
  rw [hlen, hred] at h
  have hnew : NewObjectArray (((forwarded rest).length : Int) + 1 - 1)
      = some (List.replicate (forwarded rest).length none) := by
    simp [NewObjectArray]
  rw [hnew]
  simpa [forwarded] using h

theorem storedStrings_append (t u : List Event) :
    storedStrings (t ++ u) = storedStrings t ++ storedStrings u := by
  induction t with
  | nil => rfl
  | cons e t ih => cases e <;> simp [storedStrings, ih]

theorem storedStrings_setCalls (l : List String) :
    ∀ n : Nat, storedStrings (setCalls n l) = l := by
  induction l with
  | nil => intro n; rfl
  | cons v l ih =>
    intro n
    simp only [setCalls, storedStrings]
    have := ih (n + 1)
    simp only [Nat.cast_add, Nat.cast_one] at this
    rw [this]

/-- A run of `main` on `argv = a0 :: rest` that returns 0: the calls it makes. -/
theorem main_exit_zero (env : Env) (a0 : String) (rest : List String)
    (h : (main env (a0 :: rest)).outcome = Outcome.exit 0) :
    (main env (a0 :: rest)).trace =
      [Event.get_library JVM_PATH, Event.lookup_function "JNI_GetDefaultJavaVMInitArgs",
       Event.JNI_GetDefaultJavaVMInitArgs, Event.lookup_function "JNI_CreateJavaVM",
       Event.JNI_CreateJavaVM (toJint ((consumed rest).length + 2))
         (fixedOptions ++ (consumed rest).map mkoption),
       Event.FindClass RUNJAVA,
       Event.GetStaticMethodID RUNJAVA "main" "([Ljava/lang/String;)V",
       Event.FindClass "java/lang/String",
       Event.NewObjectArray (forwarded rest).length]
      ++ setCalls 0 (forwarded rest)
      ++ [Event.CallStaticVoidMethod RUNJAVA "main" (some ((forwarded rest).map some)),
          Event.DetachCurrentThread, Event.DestroyJavaVM] := by
  revert h
  unfold main
  simp only [main_scan, main_marshal]
  split_ifs <;> simp [fixedOptions]

theorem takeWhile_dropWhile_of_first (p : String → Bool) (l : List String) :
    ∀ n : Nat, n ≤ l.length →
    (∀ j a, j < n → l.get? j = some a → p a = true) →
    (∀ a, l.get? n = some a → p a = false) →
    l.takeWhile p = l.take n ∧ l.dropWhile p = l.drop n := by
  induction l with
  | nil => intro n _ _ _; simp
  | cons b l ih =>
    intro n hn hb ha
    cases n with
    | zero =>
      have : p b = false := ha b (by simp)
      simp [List.takeWhile, List.dropWhile, this]
    | succ n =>
      have hpb : p b = true := hb 0 b (Nat.succ_pos n) (by simp)
      have := ih n (by simpa using hn)
        (fun j a hj hget => hb (j + 1) a (by omega) (by simpa using hget))
        (fun a hget => ha a (by simpa using hget))
      simp [List.takeWhile, List.dropWhile, hpb, this.1, this.2]

/-- The arguments `main` forwards, in terms of the index `k` at which the
option scan stops. -/
theorem forwarded_eq_of_boundary (a0 : String) (rest : List String) (k : Nat)
    (hk : 1 ≤ k) (hk' : k ≤ (a0 :: rest).length)
    (hnul : ∀ a ∈ a0 :: rest, ∀ c ∈ a.data, c.toNat ≠ 0)
    (hbefore : ∀ j a, 1 ≤ j → j < k → (a0 :: rest).get? j = some a →
      ¬ (a = "-jar" ∨ ¬ "-".data <+: a.data))
    (hat : ∀ a, (a0 :: rest).get? k = some a → (a = "-jar" ∨ ¬ "-".data <+: a.data)) :
    forwarded rest = (((a0 :: rest).take k).drop 1).filter (fun a => !is_jvm_option a)
        ++ (a0 :: rest).drop k
    ∧ consumed rest = (((a0 :: rest).take k).drop 1).filter is_jvm_option := by
  obtain ⟨n, rfl⟩ : ∃ n, k = n + 1 := ⟨k - 1, by omega⟩
  have hmem : ∀ j a, rest.get? j = some a → ∀ c ∈ a.data, c.toNat ≠ 0 := by
    intro j a hget
    exact hnul a (List.mem_cons_of_mem _ (List.get?_mem hget))
  have h := takeWhile_dropWhile_of_first (fun a => !scanStops a) rest n
    (by simpa using hk')
    (fun j a hj hget => by
      have h1 := hbefore (j + 1) a (by omega) (by omega) (by simpa using hget)
      have h2 := scanStops_iff a (hmem j a hget)
      cases hs : scanStops a with
      | false => simp [hs]
      | true => exact absurd (h2.mp hs) h1)
    (fun a hget => by
      have h1 := hat a (by simpa using hget)
      have h2 := scanStops_iff a (hmem n a hget)
      simp [h2.mpr h1])
  simp [forwarded, consumed, h.1, h.2]

theorem createCalls_append (t u : List Event) :
    createCalls (t ++ u) = createCalls t ++ createCalls u := by
  induction t with
  | nil => rfl
  | cons e t ih => cases e <;> simp [createCalls, ih]

theorem createCalls_setCalls (l : List String) :
    ∀ n : Nat, createCalls (setCalls n l) = [] := by
  induction l with
  | nil => intro n; rfl
  | cons v l ih => intro n; simpa [setCalls, createCalls] using ih (n + 1)

/-- When both JNI entry points resolve, `main` on `argv = a0 :: rest` calls
`JNI_CreateJavaVM` once, with the fixed options followed by the consumed
arguments. -/
theorem main_createCalls (env : Env) (a0 : String) (rest : List String)
    (hget : env.lookup_function "JNI_GetDefaultJavaVMInitArgs" = true)
    (hcreate : env.lookup_function "JNI_CreateJavaVM" = true) :
    createCalls (main env (a0 :: rest)).trace =
      [(toJint (fixedOptions ++ (consumed rest).map mkoption).length,
        fixedOptions ++ (consumed rest).map mkoption)] := by
  unfold main
  simp only [main_scan, main_marshal, hget, hcreate, Bool.not_true, Bool.false_eq_true,
    if_false]
  split_ifs <;>
    simp [createCalls, createCalls_append, createCalls_setCalls, fixedOptions]

theorem entryCalls_append (t u : List Event) :
    entryCalls (t ++ u) = entryCalls t ++ entryCalls u := by
  induction t with
  | nil => rfl
  | cons e t ih => cases e <;> simp [entryCalls, ih]

theorem entryCalls_setCalls (l : List String) :
    ∀ n : Nat, entryCalls (setCalls n l) = [] := by
  induction l with
  | nil => intro n; rfl
  | cons v l ih => intro n; simpa [setCalls, entryCalls] using ih (n + 1)

theorem toJint_of_lt (n : Nat) (h : n < 2 ^ 31) : toJint n = (n : Int) := by
  unfold toJint
  have h1 : n % 2 ^ 32 = n := Nat.mod_eq_of_lt (by omega)
  rw [h1, if_pos h]

/-! ## The claims on `java.cc` -/

/-- C1: let `k` be the first index `>= 1` of `argv` whose argument equals
`"-jar"` or does not begin with `"-"` (`k = argc` if there is none).  In a run
of `main` that reaches the entry method, the strings stored into the entry
method's argument array are, in this order, the arguments at indices
`1 .. k-1` that are not JVM options followed by all the arguments at indices
`k .. argc-1`, unmodified; the array handed to the entry method holds exactly
these, and `argv[0]` is not among the forwarded positions. -/
theorem main_forwards_arguments (env : Env) (argv : List String) (k : Nat)
    (hk : 1 ≤ k) (hk' : k ≤ argv.length)
    (hnul : ∀ a ∈ argv, ∀ c ∈ a.data, c.toNat ≠ 0)
    (hbefore : ∀ j a, 1 ≤ j → j < k → argv.get? j = some a →
      ¬ (a = "-jar" ∨ ¬ "-".data <+: a.data))
    (hat : ∀ a, argv.get? k = some a → (a = "-jar" ∨ ¬ "-".data <+: a.data))
    (hrun : (main env argv).outcome = Outcome.exit 0) :
    storedStrings (main env argv).trace =
        ((argv.take k).drop 1).filter (fun a => !is_jvm_option a) ++ argv.drop k
    ∧ entryCalls (main env argv).trace =
        [some ((((argv.take k).drop 1).filter (fun a => !is_jvm_option a)
          ++ argv.drop k).map some)] := by
  cases argv with
  | nil => simp at hk'; omega
  | cons a0 rest =>
    have hf := (forwarded_eq_of_boundary a0 rest k hk hk' hnul hbefore hat).1
    rw [← hf, main_exit_zero env a0 rest hrun]
    constructor
    · simp [storedStrings, storedStrings_append, storedStrings_setCalls]
    · simp [entryCalls, entryCalls_append, entryCalls_setCalls]

/-- C1, at a concrete input: the arguments
`-Dx=1 -Xmx256m -jar app.jar --flag` forward `-jar app.jar --flag`. -/
theorem main_forwards_arguments_witness :
    storedStrings (main envReady
        ["java", "-Dx=1", "-Xmx256m", "-jar", "app.jar", "--flag"]).trace
      = ["-jar", "app.jar", "--flag"]
    ∧ entryCalls (main envReady
        ["java", "-Dx=1", "-Xmx256m", "-jar", "app.jar", "--flag"]).trace
      = [some [some "-jar", some "app.jar", some "--flag"]] := by
  have h := main_forwards_arguments envReady
    ["java", "-Dx=1", "-Xmx256m", "-jar", "app.jar", "--flag"] 3
    (by decide) (by decide) (by decide)
    (by
      intro j a h1 h2 hget
      interval_cases j <;> simp at hget <;> subst hget <;> decide)
    (by
      intro a hget
      simp at hget
      subst hget
      decide)
    (by decide)
  have e : ((["java", "-Dx=1", "-Xmx256m", "-jar", "app.jar", "--flag"].take 3).drop 1).filter
      (fun a => !is_jvm_option a)
      ++ ["java", "-Dx=1", "-Xmx256m", "-jar", "app.jar", "--flag"].drop 3
      = ["-jar", "app.jar", "--flag"] := by decide
  rw [e] at h
  exact h

/-- C2: let `k` be the index at which the option scan stops (the first index
`>= 1` whose argument equals `"-jar"` or does not begin with `"-"`, or `argc`,
or 1 for an empty vector).  When both JNI entry points resolve, `main` calls
`JNI_CreateJavaVM` exactly once, and the option strings it hands over are
`-Djava.class.path=/java/runjava.jar` and
`-Djava.system.class.loader=io.osv.OsvSystemClassLoader`, in this order,
followed by the JVM options among the arguments at indices `1 .. k-1`,
character for character, in order and with repetitions kept; no argument at an
index `>= k` contributes.  `nOptions` is the length of that sequence converted
to `jint`, which is the length itself whenever it is below `2 ^ 31`. -/
theorem main_option_sequence (env : Env) (argv : List String) (k : Nat)
    (hk : 1 ≤ k) (hk' : k ≤ max 1 argv.length)
    (hnul : ∀ a ∈ argv, ∀ c ∈ a.data, c.toNat ≠ 0)
    (hbefore : ∀ j a, 1 ≤ j → j < k → argv.get? j = some a →
      ¬ (a = "-jar" ∨ ¬ "-".data <+: a.data))
    (hat : ∀ a, argv.get? k = some a → (a = "-jar" ∨ ¬ "-".data <+: a.data))
    (hget : env.lookup_function "JNI_GetDefaultJavaVMInitArgs" = true)
    (hcreate : env.lookup_function "JNI_CreateJavaVM" = true) :
    (createCalls (main env argv).trace).map
        (fun c => (c.1, c.2.map JavaVMOption.optionString))
      = [(toJint (2 + (((argv.take k).drop 1).filter is_jvm_option).length),
          ["-Djava.class.path=/java/runjava.jar",
           "-Djava.system.class.loader=io.osv.OsvSystemClassLoader"]
            ++ ((argv.take k).drop 1).filter is_jvm_option)]
    ∧ (2 + (((argv.take k).drop 1).filter is_jvm_option).length < 2 ^ 31 →
        toJint (2 + (((argv.take k).drop 1).filter is_jvm_option).length)
          = ((2 + (((argv.take k).drop 1).filter is_jvm_option).length : Nat) : Int)) := by
  refine ⟨?_, toJint_of_lt _⟩
  have hfix : fixedOptions.map JavaVMOption.optionString
      = ["-Djava.class.path=/java/runjava.jar",
         "-Djava.system.class.loader=io.osv.OsvSystemClassLoader"] := by
    decide
  have hmk : ∀ l : List String, (l.map mkoption).map JavaVMOption.optionString = l := by
    intro l
    induction l with
    | nil => rfl
    | cons a l ih => simp only [List.map_cons, ih, mkoption]
  cases argv with
  | nil =>
    have h2 : toJint 2 = 2 := by decide
    have hfix2 : [mkoption ("-Djava.class.path=" ++ RUNJAVA_PATH),
        mkoption "-Djava.system.class.loader=io.osv.OsvSystemClassLoader"] = fixedOptions := rfl
    unfold main
    simp only [hget, hcreate, Bool.not_true, Bool.false_eq_true, if_false, List.length_nil,
      Nat.zero_sub, scanLoop, marshalLoop, List.map_nil, hfix2]
    have hl : fixedOptions.length = 2 := rfl
    split_ifs <;> simp [createCalls, hfix, h2, hl]
  | cons a0 rest =>
    have hk'' : k ≤ (a0 :: rest).length := by
      simp only [List.length_cons] at hk' ⊢
      omega
    have hc := (forwarded_eq_of_boundary a0 rest k hk hk'' hnul hbefore hat).2
    rw [main_createCalls env a0 rest hget hcreate, ← hc]
    simp only [List.map_cons, List.map_nil, List.map_append, hfix, hmk]
    have hlen : (fixedOptions ++ (consumed rest).map mkoption).length
        = 2 + (consumed rest).length := by
      simp [fixedOptions]
      omega
    rw [hlen]

/-- C2, at two concrete inputs: `-Dx=1 -Xmx256m -Dx=1 -jar app.jar -Dlate` hands
over the two fixed options followed by `-Dx=1`, `-Xmx256m`, `-Dx=1`; and
`-jar app.jar -Dx=1` adds no option. -/
theorem main_option_sequence_witness :
    (createCalls (main envReady
        ["java", "-Dx=1", "-Xmx256m", "-Dx=1", "-jar", "app.jar", "-Dlate"]).trace).map
        (fun c => (c.1, c.2.map JavaVMOption.optionString))
      = [(5, ["-Djava.class.path=/java/runjava.jar",
              "-Djava.system.class.loader=io.osv.OsvSystemClassLoader",
              "-Dx=1", "-Xmx256m", "-Dx=1"])]
    ∧ (createCalls (main envReady ["java", "-jar", "app.jar", "-Dx=1"]).trace).map
        (fun c => (c.1, c.2.map JavaVMOption.optionString))
      = [(2, ["-Djava.class.path=/java/runjava.jar",
              "-Djava.system.class.loader=io.osv.OsvSystemClassLoader"])] := by
  have h1 := (main_option_sequence envReady
    ["java", "-Dx=1", "-Xmx256m", "-Dx=1", "-jar", "app.jar", "-Dlate"] 4
    (by decide) (by decide) (by decide)
    (by
      intro j a h1 h2 hget
      interval_cases j <;> simp at hget <;> subst hget <;> decide)
    (by
      intro a hget
      simp at hget
      subst hget
      decide)
    (by rfl) (by rfl)).1
  have h2 := (main_option_sequence envReady ["java", "-jar", "app.jar", "-Dx=1"] 1
    (by decide) (by decide) (by decide)
    (by intro j a h1 h2; omega)
    (by
      intro a hget
      simp at hget
      subst hget
      decide)
    (by rfl) (by rfl)).1
  have e1 : ((["java", "-Dx=1", "-Xmx256m", "-Dx=1", "-jar", "app.jar", "-Dlate"].take 4).drop
      1).filter is_jvm_option = ["-Dx=1", "-Xmx256m", "-Dx=1"] := by decide
  have e2 : ((["java", "-jar", "app.jar", "-Dx=1"].take 1).drop 1).filter is_jvm_option
      = [] := by decide
  have j5 : toJint (2 + ["-Dx=1", "-Xmx256m", "-Dx=1"].length) = 5 := by decide
  have j2 : toJint (2 + ([] : List String).length) = 2 := by decide
  rw [e1, j5] at h1
  rw [e2, j2] at h2
  exact ⟨h1, h2⟩

/-! ## The claims on `time.cc` -/

theorem toLong_of_lt (n : Nat) (h : n < 2 ^ 63) : toLong n = (n : Int) := by
  unfold toLong
  have h1 : n % 2 ^ 64 = n := Nat.mod_eq_of_lt (by omega)
  rw [h1, if_pos h]

/-- C3: for every clock reading `t < 2 ^ 64`, `clock_gettime(CLOCK_REALTIME, ts)`
with a non-null `ts` returns 0 and writes `(tv_sec, tv_nsec)` with
`0 <= tv_nsec < 10 ^ 9` and `tv_sec * 10 ^ 9 + tv_nsec = t`; the clock is read
exactly once, nothing is handed to the scheduler and `errno` is untouched. -/
theorem clock_gettime_realtime (k : Kernel) (old : timespec) (ht : k.now < 2 ^ 64) :
    ∃ ts k', clock_gettime k CLOCK_REALTIME (some old) = some ⟨0, some ts, k'⟩
      ∧ 0 ≤ ts.tv_nsec ∧ ts.tv_nsec < 10 ^ 9
      ∧ ts.tv_sec * 10 ^ 9 + ts.tv_nsec = (k.now : Int)
      ∧ k'.reads = k.reads + 1 ∧ k'.sleeps = k.sleeps ∧ k'.errno = k.errno := by
  have hsec : toLong (k.now / 1000000000) = ((k.now / 1000000000 : Nat) : Int) :=
    toLong_of_lt _ (by omega)
  have hnsec : toLong (k.now % 1000000000) = ((k.now % 1000000000 : Nat) : Int) :=
    toLong_of_lt _ (by omega)
  refine ⟨⟨toLong (k.now / 1000000000), toLong (k.now % 1000000000)⟩, k.time.2, ?_, ?_, ?_, ?_,
    rfl, rfl, rfl⟩
  · simp [clock_gettime, Kernel.time]
  · rw [hnsec]; dsimp only; omega
  · rw [hnsec]; dsimp only; omega
  · rw [hsec, hnsec]; dsimp only; omega

/-- C3, at the reading 1700000000123456789. -/
theorem clock_gettime_realtime_witness :
    ∃ ts k', clock_gettime (kernelAt 1700000000123456789) CLOCK_REALTIME (some ⟨0, 0⟩)
        = some ⟨0, some ts, k'⟩
      ∧ 0 ≤ ts.tv_nsec ∧ ts.tv_nsec < 10 ^ 9
      ∧ ts.tv_sec * 10 ^ 9 + ts.tv_nsec = ((kernelAt 1700000000123456789).now : Int)
      ∧ k'.reads = (kernelAt 1700000000123456789).reads + 1
      ∧ k'.sleeps = (kernelAt 1700000000123456789).sleeps
      ∧ k'.errno = (kernelAt 1700000000123456789).errno :=
  clock_gettime_realtime (kernelAt 1700000000123456789) ⟨0, 0⟩ (by decide)

/-- C4: for every clock reading `t < 2 ^ 64` and non-null `tv`,
`gettimeofday(tv, tz)` returns 0 and writes `(tv_sec, tv_usec)` with
`0 <= tv_usec < 10 ^ 6` and `tv_sec * 10 ^ 9 + tv_usec * 1000` equal to `t`
rounded down to a multiple of 1000, so that
`tv_sec * 10 ^ 9 + tv_usec * 1000 <= t < tv_sec * 10 ^ 9 + tv_usec * 1000 + 1000`. -/
theorem gettimeofday_rounds_down (k : Kernel) (old : timeval) (tz : Option timezone)
    (ht : k.now < 2 ^ 64) :
    ∃ tv, (gettimeofday k (some old) tz).ret = 0
      ∧ (gettimeofday k (some old) tz).out = some tv
      ∧ 0 ≤ tv.tv_usec ∧ tv.tv_usec < 10 ^ 6
      ∧ tv.tv_sec * 10 ^ 9 + tv.tv_usec * 1000 = ((k.now / 1000 * 1000 : Nat) : Int)
      ∧ tv.tv_sec * 10 ^ 9 + tv.tv_usec * 1000 ≤ (k.now : Int)
      ∧ (k.now : Int) < tv.tv_sec * 10 ^ 9 + tv.tv_usec * 1000 + 1000 := by
  have hsec : toLong (k.now / 1000000000) = ((k.now / 1000000000 : Nat) : Int) :=
    toLong_of_lt _ (by omega)
  have husec : toLong (k.now % 1000000000 / 1000)
      = ((k.now % 1000000000 / 1000 : Nat) : Int) :=
    toLong_of_lt _ (by omega)
  refine ⟨⟨toLong (k.now / 1000000000), toLong (k.now % 1000000000 / 1000)⟩, rfl, ?_, ?_, ?_,
    ?_, ?_, ?_⟩
  · simp [gettimeofday, Kernel.time]
  · rw [husec]; dsimp only; omega
  · rw [husec]; dsimp only; omega
  · rw [hsec, husec]; dsimp only; omega
  · rw [hsec, husec]; dsimp only; omega
  · rw [hsec, husec]; dsimp only; omega

/-- C4, at the reading 1700000000123456789. -/
theorem gettimeofday_rounds_down_witness :
    ∃ tv, (gettimeofday (kernelAt 1700000000123456789) (some ⟨0, 0⟩) none).ret = 0
      ∧ (gettimeofday (kernelAt 1700000000123456789) (some ⟨0, 0⟩) none).out = some tv
      ∧ 0 ≤ tv.tv_usec ∧ tv.tv_usec < 10 ^ 6
      ∧ tv.tv_sec * 10 ^ 9 + tv.tv_usec * 1000
          = (((kernelAt 1700000000123456789).now / 1000 * 1000 : Nat) : Int)
      ∧ tv.tv_sec * 10 ^ 9 + tv.tv_usec * 1000 ≤ ((kernelAt 1700000000123456789).now : Int)
      ∧ ((kernelAt 1700000000123456789).now : Int)
          < tv.tv_sec * 10 ^ 9 + tv.tv_usec * 1000 + 1000 :=
  gettimeofday_rounds_down (kernelAt 1700000000123456789) ⟨0, 0⟩ none (by decide)

theorem convert_of_fits (ts : timespec) (h0 : 0 ≤ ts.tv_sec * 1000000000 + ts.tv_nsec)
    (h1 : ts.tv_sec * 1000000000 + ts.tv_nsec < 2 ^ 64) :
    ((convert ts : Nat) : Int) = ts.tv_sec * 1000000000 + ts.tv_nsec := by
  unfold convert
  rw [Int.emod_eq_of_lt h0 h1, Int.toNat_of_nonneg h0]

/-- C6: `clock_gettime` succeeds exactly when the identifier is
`CLOCK_REALTIME`.  For every other identifier, `CLOCK_MONOTONIC` among them,
and every output pointer, it returns the libc error result with `errno` set to
`EINVAL`, does not read the clock, hands nothing to the scheduler and leaves
the output as it was; for `CLOCK_REALTIME` and a non-null output it returns
0. -/
theorem clock_gettime_clock_id (k : Kernel) (clk_id : Int) (ts : Option timespec)
    (old : timespec) :
    (clk_id ≠ CLOCK_REALTIME →
      ∃ r, clock_gettime k clk_id ts = some r
        ∧ r.ret = -1 ∧ r.kernel.errno = EINVAL ∧ r.out = ts
        ∧ r.kernel.reads = k.reads ∧ r.kernel.sleeps = k.sleeps ∧ r.kernel.now = k.now)
    ∧ (clk_id = CLOCK_REALTIME →
      ∃ r, clock_gettime k clk_id (some old) = some r ∧ r.ret = 0
        ∧ r.kernel.errno = k.errno)
    ∧ (∀ r, clock_gettime k clk_id (some old) = some r → (r.ret = 0 ↔ clk_id = CLOCK_REALTIME))
    ∧ CLOCK_MONOTONIC ≠ CLOCK_REALTIME := by
  refine ⟨?_, ?_, ?_, by decide⟩
  · intro h
    exact ⟨libc_error EINVAL ts k, by simp [clock_gettime, h], rfl, rfl, rfl, rfl, rfl, rfl⟩
  · intro h
    subst h
    exact ⟨⟨0, some ⟨toLong (k.now / 1000000000), toLong (k.now % 1000000000)⟩, k.time.2⟩,
      by simp [clock_gettime, Kernel.time], rfl, rfl⟩
  · intro r hr
    by_cases h : clk_id = CLOCK_REALTIME
    · subst h
      simp [clock_gettime] at hr
      subst hr
      simp
    · simp [clock_gettime, h, libc_error] at hr
      subst hr
      simp [h]

/-- C6, at `CLOCK_MONOTONIC`: the call fails with `EINVAL` and the output is
untouched. -/
theorem clock_gettime_clock_id_witness :
    ∃ r, clock_gettime (kernelAt 1700000000123456789) CLOCK_MONOTONIC (some ⟨7, 7⟩) = some r
      ∧ r.ret = -1 ∧ r.kernel.errno = EINVAL ∧ r.out = some ⟨7, 7⟩
      ∧ r.kernel.reads = (kernelAt 1700000000123456789).reads
      ∧ r.kernel.sleeps = (kernelAt 1700000000123456789).sleeps
      ∧ r.kernel.now = (kernelAt 1700000000123456789).now :=
  (clock_gettime_clock_id (kernelAt 1700000000123456789) CLOCK_MONOTONIC (some ⟨7, 7⟩)
    ⟨0, 0⟩).1 (by decide)

/-- C7: for every identifier other than `CLOCK_REALTIME`, `clock_getres` returns
the libc error result with `errno` set to `EINVAL` and leaves the output as it
was; for `CLOCK_REALTIME` it returns 0 and, with a non-null output, writes
`tv_sec = 0`, `tv_nsec = 1` whatever the kernel state; with a null output it
returns 0 and writes nothing.  In the successful cases the kernel is left as it
was. -/
theorem clock_getres_fixed (k : Kernel) (clk_id : Int) (ts : Option timespec)
    (old : timespec) :
    (clk_id ≠ CLOCK_REALTIME →
      (clock_getres k clk_id ts).ret = -1
        ∧ (clock_getres k clk_id ts).kernel.errno = EINVAL
        ∧ (clock_getres k clk_id ts).out = ts
        ∧ (clock_getres k clk_id ts).kernel.reads = k.reads)
    ∧ (clk_id = CLOCK_REALTIME →
      clock_getres k clk_id (some old) = ⟨0, some ⟨0, 1⟩, k⟩
        ∧ clock_getres k clk_id none = ⟨0, none, k⟩) := by
  constructor
  · intro h
    simp [clock_getres, h, libc_error]
  · intro h
    subst h
    simp [clock_getres]

/-- C7, at `CLOCK_MONOTONIC` and at `CLOCK_REALTIME`. -/
theorem clock_getres_fixed_witness :
    ((clock_getres (kernelAt 5) CLOCK_MONOTONIC (some ⟨7, 7⟩)).ret = -1
      ∧ (clock_getres (kernelAt 5) CLOCK_MONOTONIC (some ⟨7, 7⟩)).kernel.errno = EINVAL
      ∧ (clock_getres (kernelAt 5) CLOCK_MONOTONIC (some ⟨7, 7⟩)).out = some ⟨7, 7⟩
      ∧ (clock_getres (kernelAt 5) CLOCK_MONOTONIC (some ⟨7, 7⟩)).kernel.reads
          = (kernelAt 5).reads)
    ∧ (clock_getres (kernelAt 5) CLOCK_REALTIME (some ⟨7, 7⟩) = ⟨0, some ⟨0, 1⟩, kernelAt 5⟩
      ∧ clock_getres (kernelAt 5) CLOCK_REALTIME none = ⟨0, none, kernelAt 5⟩) :=
  ⟨(clock_getres_fixed (kernelAt 5) CLOCK_MONOTONIC (some ⟨7, 7⟩) ⟨7, 7⟩).1 (by decide),
   (clock_getres_fixed (kernelAt 5) CLOCK_REALTIME none ⟨7, 7⟩).2 rfl⟩

/-! ## The claims on the failure paths of `java.cc` -/

theorem debugs_append (t u : List Event) :
    debugs (t ++ u) = debugs t ++ debugs u := by
  induction t with
  | nil => rfl
  | cons e t ih => cases e <;> simp [debugs, ih]

theorem debugs_setCalls (l : List String) :
    ∀ n : Nat, debugs (setCalls n l) = [] := by
  induction l with
  | nil => intro n; rfl
  | cons v l ih => intro n; simpa [setCalls, debugs] using ih (n + 1)

/-- The run of `main` on the empty argument vector. -/
theorem main_nil (env : Env) :
    main env [] =
      if !env.lookup_function "JNI_GetDefaultJavaVMInitArgs" then
        ⟨[Event.get_library JVM_PATH, Event.lookup_function "JNI_GetDefaultJavaVMInitArgs"],
          Outcome.fault "call through the null pointer JNI_GetDefaultJavaVMInitArgs"⟩
      else if !env.lookup_function "JNI_CreateJavaVM" then
        ⟨[Event.get_library JVM_PATH, Event.lookup_function "JNI_GetDefaultJavaVMInitArgs",
          Event.JNI_GetDefaultJavaVMInitArgs, Event.lookup_function "JNI_CreateJavaVM",
          Event.debug "java.so: failed looking up JNI_CreateJavaVM()\n"], Outcome.exit 1⟩
      else if env.JNI_CreateJavaVM 2 fixedOptions != 0 then
        ⟨[Event.get_library JVM_PATH, Event.lookup_function "JNI_GetDefaultJavaVMInitArgs",
          Event.JNI_GetDefaultJavaVMInitArgs, Event.lookup_function "JNI_CreateJavaVM",
          Event.JNI_CreateJavaVM 2 fixedOptions,
          Event.debug "java.so: Can't create VM.\n"], Outcome.exit 1⟩
      else if !env.FindClass RUNJAVA then
        ⟨[Event.get_library JVM_PATH, Event.lookup_function "JNI_GetDefaultJavaVMInitArgs",
          Event.JNI_GetDefaultJavaVMInitArgs, Event.lookup_function "JNI_CreateJavaVM",
          Event.JNI_CreateJavaVM 2 fixedOptions, Event.FindClass RUNJAVA,
          Event.debug ("java.so: Can't find class " ++ RUNJAVA ++ " in "
            ++ RUNJAVA_PATH ++ ".\n")], Outcome.exit 1⟩
      else if !env.GetStaticMethodID RUNJAVA "main" "([Ljava/lang/String;)V" then
        ⟨[Event.get_library JVM_PATH, Event.lookup_function "JNI_GetDefaultJavaVMInitArgs",
          Event.JNI_GetDefaultJavaVMInitArgs, Event.lookup_function "JNI_CreateJavaVM",
          Event.JNI_CreateJavaVM 2 fixedOptions, Event.FindClass RUNJAVA,
          Event.GetStaticMethodID RUNJAVA "main" "([Ljava/lang/String;)V",
          Event.debug ("java.so: Can't find main() in class " ++ RUNJAVA ++ ".\n")],
          Outcome.exit 1⟩
      else
        ⟨[Event.get_library JVM_PATH, Event.lookup_function "JNI_GetDefaultJavaVMInitArgs",
          Event.JNI_GetDefaultJavaVMInitArgs, Event.lookup_function "JNI_CreateJavaVM",
          Event.JNI_CreateJavaVM 2 fixedOptions, Event.FindClass RUNJAVA,
          Event.GetStaticMethodID RUNJAVA "main" "([Ljava/lang/String;)V",
          Event.FindClass "java/lang/String", Event.NewObjectArray (-1),
          Event.CallStaticVoidMethod RUNJAVA "main" none,
          Event.DetachCurrentThread, Event.DestroyJavaVM], Outcome.exit 0⟩ := by
  have hj : toJint 2 = 2 := by decide
  have hn : NewObjectArray (((0 : Nat) : Int) - 1) = none := by decide
  unfold main
  simp only [List.length_nil, Nat.zero_sub, scanLoop, marshalLoop, List.map_nil, fixedOptions,
    List.length_cons, hj, hn]
  split_ifs <;> simp

/-- The run of `main` on `argv = a0 :: rest`, with the two loops replaced by
what they compute. -/
theorem main_cons (env : Env) (a0 : String) (rest : List String) :
    main env (a0 :: rest) =
      if !env.lookup_function "JNI_GetDefaultJavaVMInitArgs" then
        ⟨[Event.get_library JVM_PATH, Event.lookup_function "JNI_GetDefaultJavaVMInitArgs"],
          Outcome.fault "call through the null pointer JNI_GetDefaultJavaVMInitArgs"⟩
      else if !env.lookup_function "JNI_CreateJavaVM" then
        ⟨[Event.get_library JVM_PATH, Event.lookup_function "JNI_GetDefaultJavaVMInitArgs",
          Event.JNI_GetDefaultJavaVMInitArgs, Event.lookup_function "JNI_CreateJavaVM",
          Event.debug "java.so: failed looking up JNI_CreateJavaVM()\n"], Outcome.exit 1⟩
      else if creationStatus env (a0 :: rest) != 0 then
        ⟨[Event.get_library JVM_PATH, Event.lookup_function "JNI_GetDefaultJavaVMInitArgs",
          Event.JNI_GetDefaultJavaVMInitArgs, Event.lookup_function "JNI_CreateJavaVM",
          Event.JNI_CreateJavaVM
            (toJint (fixedOptions ++ (consumed rest).map mkoption).length)
            (fixedOptions ++ (consumed rest).map mkoption),
          Event.debug "java.so: Can't create VM.\n"], Outcome.exit 1⟩
      else if !env.FindClass RUNJAVA then
        ⟨[Event.get_library JVM_PATH, Event.lookup_function "JNI_GetDefaultJavaVMInitArgs",
          Event.JNI_GetDefaultJavaVMInitArgs, Event.lookup_function "JNI_CreateJavaVM",
          Event.JNI_CreateJavaVM
            (toJint (fixedOptions ++ (consumed rest).map mkoption).length)
            (fixedOptions ++ (consumed rest).map mkoption),
          Event.FindClass RUNJAVA,
          Event.debug ("java.so: Can't find class " ++ RUNJAVA ++ " in "
            ++ RUNJAVA_PATH ++ ".\n")], Outcome.exit 1⟩
      else if !env.GetStaticMethodID RUNJAVA "main" "([Ljava/lang/String;)V" then
        ⟨[Event.get_library JVM_PATH, Event.lookup_function "JNI_GetDefaultJavaVMInitArgs",
          Event.JNI_GetDefaultJavaVMInitArgs, Event.lookup_function "JNI_CreateJavaVM",
          Event.JNI_CreateJavaVM
            (toJint (fixedOptions ++ (consumed rest).map mkoption).length)
            (fixedOptions ++ (consumed rest).map mkoption),
          Event.FindClass RUNJAVA,
          Event.GetStaticMethodID RUNJAVA "main" "([Ljava/lang/String;)V",
          Event.debug ("java.so: Can't find main() in class " ++ RUNJAVA ++ ".\n")],
          Outcome.exit 1⟩
      else
        ⟨[Event.get_library JVM_PATH, Event.lookup_function "JNI_GetDefaultJavaVMInitArgs",
          Event.JNI_GetDefaultJavaVMInitArgs, Event.lookup_function "JNI_CreateJavaVM",
          Event.JNI_CreateJavaVM
            (toJint (fixedOptions ++ (consumed rest).map mkoption).length)
            (fixedOptions ++ (consumed rest).map mkoption),
          Event.FindClass RUNJAVA,
          Event.GetStaticMethodID RUNJAVA "main" "([Ljava/lang/String;)V",
          Event.FindClass "java/lang/String",
          Event.NewObjectArray (forwarded rest).length]
          ++ setCalls 0 (forwarded rest)
          ++ [Event.CallStaticVoidMethod RUNJAVA "main" (some ((forwarded rest).map some)),
            Event.DetachCurrentThread, Event.DestroyJavaVM], Outcome.exit 0⟩ := by
  unfold main creationStatus
  simp only [main_scan, main_marshal, fixedOptions, List.tail_cons]
  split_ifs <;> simp

theorem creationStatus_nil (env : Env) :
    creationStatus env [] = env.JNI_CreateJavaVM 2 fixedOptions := by
  have hj : toJint 2 = 2 := by decide
  simp [creationStatus, consumed, fixedOptions, hj]

/-- C9 fails on the code: `main` never tests the handle `get_library` returns.
With `libjvm.so` missing it goes on to look up `JNI_GetDefaultJavaVMInitArgs`
and calls through the null pointer it gets, writing no diagnostic and
returning no exit code; and no run of `main` writes a diagnostic that names
`JVM_PATH`. -/
theorem main_missing_library :
    main envNoLibrary ["java", "-jar", "app.jar"] =
      ⟨[Event.get_library JVM_PATH, Event.lookup_function "JNI_GetDefaultJavaVMInitArgs"],
        Outcome.fault "call through the null pointer JNI_GetDefaultJavaVMInitArgs"⟩
    ∧ envNoLibrary.get_library JVM_PATH = false
    ∧ (main envNoLibrary ["java", "-jar", "app.jar"]).outcome ≠ Outcome.exit 1
    ∧ debugs (main envNoLibrary ["java", "-jar", "app.jar"]).trace = []
    ∧ ∀ (env : Env) (argv : List String), ∀ msg ∈ debugs (main env argv).trace,
        ¬ JVM_PATH.data <:+: msg.data := by
  refine ⟨by decide, by decide, by decide, by decide, ?_⟩
  intro env argv msg hmsg
  have h1 : ¬ JVM_PATH.data <:+: "java.so: failed looking up JNI_CreateJavaVM()\n".data := by
    decide
  have h2 : ¬ JVM_PATH.data <:+: "java.so: Can't create VM.\n".data := by decide
  have h3 : ¬ JVM_PATH.data <:+:
      ("java.so: Can't find class " ++ RUNJAVA ++ " in " ++ RUNJAVA_PATH ++ ".\n").data := by
    decide
  have h4 : ¬ JVM_PATH.data <:+:
      ("java.so: Can't find main() in class " ++ RUNJAVA ++ ".\n").data := by decide
  cases argv with
  | nil =>
    rw [main_nil] at hmsg
    split_ifs at hmsg <;> simp [debugs] at hmsg <;> subst hmsg <;> assumption
  | cons a0 rest =>
    rw [main_cons] at hmsg
    split_ifs at hmsg <;>
      simp [debugs, debugs_append, debugs_setCalls] at hmsg <;> subst hmsg <;> assumption

/-- C10 fails on the code for `JNI_GetDefaultJavaVMInitArgs`: the pointer
`lookup_function` returns for it is called without a test, so when the symbol is
missing `main` calls through a null pointer, writes no diagnostic and returns
no exit code.  The lookup of `JNI_CreateJavaVM` is tested: when that symbol is
missing `main` writes a diagnostic naming it and returns 1 without calling
it. -/
theorem main_unresolved_entry_points :
    (main envNoInitArgs ["java", "-jar", "app.jar"] =
      ⟨[Event.get_library JVM_PATH, Event.lookup_function "JNI_GetDefaultJavaVMInitArgs"],
        Outcome.fault "call through the null pointer JNI_GetDefaultJavaVMInitArgs"⟩
      ∧ envNoInitArgs.get_library JVM_PATH = true
      ∧ (main envNoInitArgs ["java", "-jar", "app.jar"]).outcome ≠ Outcome.exit 1
      ∧ debugs (main envNoInitArgs ["java", "-jar", "app.jar"]).trace = [])
    ∧ ((main envNoCreate ["java", "-jar", "app.jar"]).outcome = Outcome.exit 1
      ∧ debugs (main envNoCreate ["java", "-jar", "app.jar"]).trace
          = ["java.so: failed looking up JNI_CreateJavaVM()\n"]
      ∧ createCalls (main envNoCreate ["java", "-jar", "app.jar"]).trace = []) := by
  refine ⟨⟨by decide, by decide, by decide, by decide⟩, by decide, by decide, by decide⟩

/-! ## The claims on option recognition and on the argument array -/

theorem strncmp_self (s : List Char) : ∀ n : Nat, strncmp s s n = 0 := by
  induction s with
  | nil => intro n; cases n <;> simp [strncmp]
  | cons a s ih => intro n; cases n <;> simp [strncmp, ih]

/-- A recognised JVM option does not stop the option scan. -/
theorem scanStops_of_is_jvm_option (a : String) (h : is_jvm_option a = true) :
    scanStops a = false := by
  have hd : "-".data <+: a.data := by
    unfold is_jvm_option at h
    simp only [Bool.or_eq_true] at h
    rw [starts_with_iff a "-verbose" (by decide), starts_with_iff a "-D" (by decide),
      starts_with_iff a "-X" (by decide), starts_with_iff a "-javaagent" (by decide),
      starts_with_iff a "-agentlib" (by decide)] at h
    rcases h with (((h | h) | h) | h) | h <;>
      exact List.IsPrefix.trans (by decide) h
  have hj : strcmp a.data "-jar".data ≠ 0 := by
    unfold is_jvm_option at h
    simp only [Bool.or_eq_true] at h
    rw [starts_with_iff a "-verbose" (by decide), starts_with_iff a "-D" (by decide),
      starts_with_iff a "-X" (by decide), starts_with_iff a "-javaagent" (by decide),
      starts_with_iff a "-agentlib" (by decide)] at h
    rcases h with (((⟨t, ht⟩ | ⟨t, ht⟩) | ⟨t, ht⟩) | ⟨t, ht⟩) | ⟨t, ht⟩ <;>
      rw [← ht] <;> simp [strcmp]
  have hs := (starts_with_iff a "-" (by decide)).mpr hd
  simp [scanStops, hs, hj]

/-- C11: `is_jvm_option(arg)` is true exactly when `arg` has one of the five
literals `-verbose`, `-D`, `-X`, `-javaagent`, `-agentlib` as a prefix, and
`starts_with(s, p)` is true exactly when `p` is a prefix of `s`: false whenever
`s` is shorter than `p`, true for `s` equal to `p`.  So `-Xnonsense`, `-D` and
`-verbosegarbage` are recognised, while `-jar` is not; a recognised argument
met by the option scan is handed to the JVM and not forwarded, and an argument
after the one that stops the scan is forwarded even if it is recognised. -/
theorem is_jvm_option_literal_match :
    (∀ arg : String, is_jvm_option arg = true ↔
      ("-verbose".data <+: arg.data ∨ "-D".data <+: arg.data ∨ "-X".data <+: arg.data
        ∨ "-javaagent".data <+: arg.data ∨ "-agentlib".data <+: arg.data))
    ∧ (∀ s p : String, (∀ c ∈ p.data, c.toNat ≠ 0) →
        (starts_with s p = true ↔ p.data <+: s.data))
    ∧ (∀ s p : String, (∀ c ∈ p.data, c.toNat ≠ 0) → s.data.length < p.data.length →
        starts_with s p = false)
    ∧ (∀ p : String, starts_with p p = true)
    ∧ (∀ (a : String) (rest : List String), is_jvm_option a = true →
        consumed (a :: rest) = a :: consumed rest ∧ forwarded (a :: rest) = forwarded rest)
    ∧ is_jvm_option "-Xnonsense" = true ∧ is_jvm_option "-D" = true
    ∧ is_jvm_option "-verbosegarbage" = true ∧ is_jvm_option "-jar" = false
    ∧ createCalls (main envReady
          ["java", "-Xnonsense", "-D", "-verbosegarbage", "-jar", "-Dlate"]).trace
        = [(5, fixedOptions ++ [mkoption "-Xnonsense", mkoption "-D",
                                mkoption "-verbosegarbage"])]
    ∧ storedStrings (main envReady
          ["java", "-Xnonsense", "-D", "-verbosegarbage", "-jar", "-Dlate"]).trace
        = ["-jar", "-Dlate"] := by
  refine ⟨?_, ?_, ?_, ?_, ?_, by decide, by decide, by decide, by decide, by decide,
    by decide⟩
  · intro arg
    unfold is_jvm_option
    simp only [Bool.or_eq_true]
    rw [starts_with_iff arg "-verbose" (by decide), starts_with_iff arg "-D" (by decide),
      starts_with_iff arg "-X" (by decide), starts_with_iff arg "-javaagent" (by decide),
      starts_with_iff arg "-agentlib" (by decide)]
    tauto
  · intro s p hp
    exact starts_with_iff s p hp
  · intro s p hp hlen
    cases h : starts_with s p with
    | false => rfl
    | true =>
      have := ((starts_with_iff s p hp).mp h).length_le
      omega
  · intro p
    unfold starts_with
    rw [strncmp_self]
    rfl
  · intro a rest ha
    have hs := scanStops_of_is_jvm_option a ha
    simp [consumed, forwarded, List.takeWhile, List.dropWhile, hs, ha]

/-- C11, at the argument `-Dx=1` and the literal `-D`. -/
theorem is_jvm_option_literal_match_witness :
    (starts_with "-Dx=1" "-D" = true ↔ "-D".data <+: "-Dx=1".data)
    ∧ starts_with "-" "-D" = false :=
  ⟨is_jvm_option_literal_match.2.1 "-Dx=1" "-D" (by decide),
   is_jvm_option_literal_match.2.2.1 "-" "-D" (by decide) (by decide)⟩

theorem setIndices_setCalls (l : List String) :
    ∀ n : Nat, setIndices (setCalls n l) = (List.range' n l.length).map Int.ofNat := by
  induction l with
  | nil => intro n; rfl
  | cons v l ih =>
    intro n
    simp only [setCalls, setIndices, List.length_cons, List.range'_succ, List.map_cons]
    rw [ih (n + 1)]
    rfl

theorem setIndices_append (t u : List Event) :
    setIndices (t ++ u) = setIndices t ++ setIndices u := by
  induction t with
  | nil => rfl
  | cons e t ih => cases e <;> simp [setIndices, ih]

theorem forwarded_of_all_options (rest : List String)
    (h : ∀ a ∈ rest, is_jvm_option a = true) : forwarded rest = [] := by
  have ht : rest.takeWhile (fun a => !scanStops a) = rest := by
    rw [List.takeWhile_eq_self_iff]
    intro a ha
    simp [scanStops_of_is_jvm_option a (h a ha)]
  have hd : rest.dropWhile (fun a => !scanStops a) = [] := by
    rw [List.dropWhile_eq_nil_iff]
    intro a ha
    simp [scanStops_of_is_jvm_option a (h a ha)]
  unfold forwarded
  rw [ht, hd, List.append_nil, List.filter_eq_nil_iff]
  intro a ha
  simp [h a ha]

/-- C18: for every argument vector with `argc >= 1`, the option scan ends with
`argc - 1` equal to the number of non-null entries among
`argv[1 .. orig_argc-1]`; the marshalling loop, run on the array
`NewObjectArray(argc - 1, ...)`, calls `SetObjectArrayElement` with the indices
`0, 1, ..., n-1`, each once and in this order, for the `n` non-null entries in
their order, every index inside the array, and leaves an array of length `n`
with no slot unset.  When every argument after `argv[0]` is a JVM option, and
in particular when there is none, the array has length zero.  A run of `main`
that reaches the entry method makes exactly these calls. -/
theorem argument_array_sizing (argv : List String) (hargc : 1 ≤ argv.length) :
    ∃ st m,
      scanLoop (argv.length - 1) 1 ⟨argv.map some, fixedOptions, (argv.length : Nat)⟩ = some st
      ∧ st.argv.length = argv.length
      ∧ st.argc - 1 = (((st.argv.drop 1).reduceOption.length : Nat) : Int)
      ∧ NewObjectArray (st.argc - 1)
          = some (List.replicate (st.argv.drop 1).reduceOption.length none)
      ∧ marshalLoop st.argv (argv.length - 1) 1 ⟨0, NewObjectArray (st.argc - 1), []⟩ = some m
      ∧ setIndices m.calls
          = (List.range (st.argv.drop 1).reduceOption.length).map Int.ofNat
      ∧ storedStrings m.calls = (st.argv.drop 1).reduceOption
      ∧ m.calls.length = (st.argv.drop 1).reduceOption.length
      ∧ m.args = some ((st.argv.drop 1).reduceOption.map some)
      ∧ ((∀ a ∈ argv.drop 1, is_jvm_option a = true) →
          NewObjectArray (st.argc - 1) = some [] ∧ m.calls = [] ∧ m.args = some [])
      ∧ (argv.length = 1 →
          NewObjectArray (st.argc - 1) = some [] ∧ m.calls = [] ∧ m.args = some [])
      ∧ (∀ env : Env, (main env argv).outcome = Outcome.exit 0 →
          Event.NewObjectArray (st.argc - 1) ∈ (main env argv).trace
          ∧ setIndices (main env argv).trace = setIndices m.calls
          ∧ entryCalls (main env argv).trace = [m.args]) := by
  cases argv with
  | nil => simp at hargc
  | cons a0 rest =>
    have hred : ((some a0 :: ((rest.takeWhile (fun a => !scanStops a)).map
          (fun a => if is_jvm_option a then none else some a)
        ++ (rest.dropWhile (fun a => !scanStops a)).map some)).drop 1).reduceOption
        = forwarded rest := by
      rw [List.drop_one, List.tail_cons]
      exact reduceOption_scanned _ _
    have hlen : ((rest.takeWhile (fun a => !scanStops a)).map
          (fun a => if is_jvm_option a then none else some a)
        ++ (rest.dropWhile (fun a => !scanStops a)).map some).length = rest.length := by
      rw [List.length_append, List.length_map, List.length_map, ← List.length_append,
        List.takeWhile_append_dropWhile]
    have hnew : NewObjectArray (((forwarded rest).length : Int) + 1 - 1)
        = some (List.replicate (forwarded rest).length none) := by
      simp [NewObjectArray]
    have hcalls : ∀ (l : List String) (n : Nat), (setCalls n l).length = l.length := by
      intro l
      induction l with
      | nil => intro n; rfl
      | cons v l ih => intro n; simp [setCalls, ih]
    refine ⟨⟨some a0 :: ((rest.takeWhile (fun a => !scanStops a)).map
          (fun a => if is_jvm_option a then none else some a)
        ++ (rest.dropWhile (fun a => !scanStops a)).map some),
        fixedOptions ++ (consumed rest).map mkoption, ((forwarded rest).length : Int) + 1⟩,
      ⟨((forwarded rest).length : Nat), some ((forwarded rest).map some),
        setCalls 0 (forwarded rest)⟩,
      main_scan a0 rest fixedOptions, ?_, ?_, ?_, ?_, ?_, ?_, ?_, ?_, ?_, ?_, ?_⟩
    · simp [hlen]
    · simp only [hred]; omega
    · simp only [hred]; exact hnew
    · exact main_marshal a0 rest
    · simp only [hred]
      rw [setIndices_setCalls, List.range_eq_range']
    · simp only [hred]; exact storedStrings_setCalls _ _
    · simp only [hred]; exact hcalls _ _
    · simp only [hred]
    · intro hall
      have hf := forwarded_of_all_options rest (by simpa using hall)
      simp only [hnew, hf]
      simp [setCalls, NewObjectArray]
    · intro h1
      have hr : rest = [] := by
        cases rest with
        | nil => rfl
        | cons b r => simp at h1
      subst hr
      simp only [hnew]
      simp [forwarded, setCalls, NewObjectArray]
    · intro env hrun
      rw [main_exit_zero env a0 rest hrun]
      refine ⟨by simp, ?_, ?_⟩
      · simp [setIndices, setIndices_append]
      · simp [entryCalls, entryCalls_append, entryCalls_setCalls]

/-- C18, at the arguments `-Dx=1 -Xmx256m`, which are all handed to the JVM: the
array has length zero and no element is stored. -/
theorem argument_array_sizing_witness :
    ∃ st m,
      scanLoop 2 1 ⟨["java", "-Dx=1", "-Xmx256m"].map some, fixedOptions, 3⟩ = some st
      ∧ st.argc - 1 = 0
      ∧ marshalLoop st.argv 2 1 ⟨0, NewObjectArray (st.argc - 1), []⟩ = some m
      ∧ m.calls = [] ∧ m.args = some [] := by
  obtain ⟨st, m, h1, _, h3, _, h5, _, _, _, _, h10, _, _⟩ :=
    argument_array_sizing ["java", "-Dx=1", "-Xmx256m"] (by decide)
  have h := h10 (by decide)
  refine ⟨st, m, h1, ?_, h5, h.2.1, h.2.2⟩
  have e : scanLoop 2 1 ⟨["java", "-Dx=1", "-Xmx256m"].map some, fixedOptions, 3⟩
      = some ⟨[some "java", none, none],
          fixedOptions ++ [mkoption "-Dx=1", mkoption "-Xmx256m"], 1⟩ := by decide
  have h1' : scanLoop 2 1 ⟨["java", "-Dx=1", "-Xmx256m"].map some, fixedOptions, 3⟩
      = some st := h1
  rw [e] at h1'
  cases h1'
  decide

/-! ## Further claims on `time.cc` -/

/-- C12: for clock readings `t1 <= t2 < 2 ^ 64`, the pair `(tv_sec, tv_nsec)`
written by `clock_gettime` at `t1` is lexicographically at most the pair written
at `t2`, and so is the pair `(tv_sec, tv_usec)` written by `gettimeofday`. -/
theorem time_reports_monotone (k1 k2 : Kernel) (old1 old2 : timespec)
    (oldv1 oldv2 : timeval) (tz1 tz2 : Option timezone)
    (h12 : k1.now ≤ k2.now) (h2 : k2.now < 2 ^ 64) :
    (∃ r1 r2 ts1 ts2,
      clock_gettime k1 CLOCK_REALTIME (some old1) = some r1 ∧ r1.out = some ts1
      ∧ clock_gettime k2 CLOCK_REALTIME (some old2) = some r2 ∧ r2.out = some ts2
      ∧ (ts1.tv_sec < ts2.tv_sec
          ∨ (ts1.tv_sec = ts2.tv_sec ∧ ts1.tv_nsec ≤ ts2.tv_nsec)))
    ∧ (∃ tv1 tv2,
      (gettimeofday k1 (some oldv1) tz1).out = some tv1
      ∧ (gettimeofday k2 (some oldv2) tz2).out = some tv2
      ∧ (tv1.tv_sec < tv2.tv_sec
          ∨ (tv1.tv_sec = tv2.tv_sec ∧ tv1.tv_usec ≤ tv2.tv_usec))) := by
  have hs1 : toLong (k1.now / 1000000000) = ((k1.now / 1000000000 : Nat) : Int) :=
    toLong_of_lt _ (by omega)
  have hs2 : toLong (k2.now / 1000000000) = ((k2.now / 1000000000 : Nat) : Int) :=
    toLong_of_lt _ (by omega)
  have hn1 : toLong (k1.now % 1000000000) = ((k1.now % 1000000000 : Nat) : Int) :=
    toLong_of_lt _ (by omega)
  have hn2 : toLong (k2.now % 1000000000) = ((k2.now % 1000000000 : Nat) : Int) :=
    toLong_of_lt _ (by omega)
  have hu1 : toLong (k1.now % 1000000000 / 1000)
      = ((k1.now % 1000000000 / 1000 : Nat) : Int) := toLong_of_lt _ (by omega)
  have hu2 : toLong (k2.now % 1000000000 / 1000)
      = ((k2.now % 1000000000 / 1000 : Nat) : Int) := toLong_of_lt _ (by omega)
  constructor
  · refine ⟨⟨0, some ⟨toLong (k1.now / 1000000000), toLong (k1.now % 1000000000)⟩, k1.time.2⟩,
      ⟨0, some ⟨toLong (k2.now / 1000000000), toLong (k2.now % 1000000000)⟩, k2.time.2⟩,
      _, _, by simp [clock_gettime, Kernel.time], rfl,
      by simp [clock_gettime, Kernel.time], rfl, ?_⟩
    rw [hs1, hs2, hn1, hn2]
    dsimp only
    omega
  · refine ⟨⟨toLong (k1.now / 1000000000), toLong (k1.now % 1000000000 / 1000)⟩,
      ⟨toLong (k2.now / 1000000000), toLong (k2.now % 1000000000 / 1000)⟩,
      by simp [gettimeofday, Kernel.time], by simp [gettimeofday, Kernel.time], ?_⟩
    rw [hs1, hs2, hu1, hu2]
    dsimp only
    omega

/-- C12, at two readings inside the same second. -/
theorem time_reports_monotone_witness :
    (∃ r1 r2 ts1 ts2,
      clock_gettime (kernelAt 1700000000123456789) CLOCK_REALTIME (some ⟨0, 0⟩) = some r1
      ∧ r1.out = some ts1
      ∧ clock_gettime (kernelAt 1700000000123456999) CLOCK_REALTIME (some ⟨0, 0⟩) = some r2
      ∧ r2.out = some ts2
      ∧ (ts1.tv_sec < ts2.tv_sec
          ∨ (ts1.tv_sec = ts2.tv_sec ∧ ts1.tv_nsec ≤ ts2.tv_nsec)))
    ∧ (∃ tv1 tv2,
      (gettimeofday (kernelAt 1700000000123456789) (some ⟨0, 0⟩) none).out = some tv1
      ∧ (gettimeofday (kernelAt 1700000000123456999) (some ⟨0, 0⟩) none).out = some tv2
      ∧ (tv1.tv_sec < tv2.tv_sec
          ∨ (tv1.tv_sec = tv2.tv_sec ∧ tv1.tv_usec ≤ tv2.tv_usec))) :=
  time_reports_monotone (kernelAt 1700000000123456789) (kernelAt 1700000000123456999)
    ⟨0, 0⟩ ⟨0, 0⟩ ⟨0, 0⟩ ⟨0, 0⟩ none none (by decide) (by decide)

/-- C13: for every `pid` and every output pointer, null or not,
`clock_getcpuclockid` returns the libc error result with `errno` set to
`ENOSYS`, leaves the output as it was, and neither reads the clock nor hands
anything to the scheduler. -/
theorem clock_getcpuclockid_not_supported (k : Kernel) (pid : Int)
    (clock_id : Option Int) :
    (clock_getcpuclockid k pid clock_id).ret = -1
    ∧ (clock_getcpuclockid k pid clock_id).kernel.errno = ENOSYS
    ∧ (clock_getcpuclockid k pid clock_id).out = clock_id
    ∧ (clock_getcpuclockid k pid clock_id).kernel.reads = k.reads
    ∧ (clock_getcpuclockid k pid clock_id).kernel.sleeps = k.sleeps
    ∧ (clock_getcpuclockid k pid clock_id).kernel.now = k.now :=
  ⟨rfl, rfl, rfl, rfl, rfl, rfl⟩

/-- C14: `gettimeofday` returns 0 for every input and leaves `errno` alone; with
a null `tv` it changes nothing at all (no clock read, nothing written); and its
result does not depend on `tz`. -/
theorem gettimeofday_never_fails (k : Kernel) (tv : Option timeval)
    (tz tz' : Option timezone) :
    (gettimeofday k tv tz).ret = 0
    ∧ (gettimeofday k tv tz).kernel.errno = k.errno
    ∧ (gettimeofday k tv tz).kernel.sleeps = k.sleeps
    ∧ gettimeofday k none tz = ⟨0, none, k⟩
    ∧ gettimeofday k tv tz = gettimeofday k tv tz' := by
  cases tv <;> exact ⟨rfl, rfl, rfl, rfl, rfl⟩

/-- C15 fails on the code: `clock_gettime` does not test `ts`.  With
`CLOCK_REALTIME` and a null output it reads the clock and then writes
`ts->tv_sec` through the null pointer, so the call faults instead of returning
0.  The neighbouring functions do test their output: `gettimeofday` with a null
`tv` and `clock_getres` with a null `ts` return 0 and write nothing. -/
theorem clock_gettime_null_output (k : Kernel) :
    clock_gettime k CLOCK_REALTIME none = none
    ∧ gettimeofday k none none = ⟨0, none, k⟩
    ∧ clock_getres k CLOCK_REALTIME none = ⟨0, none, k⟩ := by
  refine ⟨?_, rfl, ?_⟩
  · simp [clock_gettime]
  · simp [clock_getres]

/-- C19, as stated, fails where the sum leaves the unsigned 64-bit range: at the
clock reading `2 ^ 64 - 1`, `usleep(1)` hands the scheduler the deadline 999,
not `t + 1000`. -/
theorem usleep_wraps_past_u64 :
    (usleep 1000 (kernelAt (2 ^ 64 - 1)) 1).kernel.sleeps = [999]
    ∧ (999 : Nat) ≠ (kernelAt (2 ^ 64 - 1)).now + 1 * 1000
    ∧ (usleep 1000 (kernelAt (2 ^ 64 - 1)) 1).ret = 0 := by
  refine ⟨by decide, by decide, rfl⟩

/-- C19, amended: with `1_us` the 64-bit constant 1000, for every `usec` below
`2 ^ 32` and every clock reading `t`, `usleep(usec)` returns 0 and hands the
scheduler the deadline `(t + usec * 1000) mod 2 ^ 64`, the product being
`usec * 1000` itself and not its low 32 bits; the deadline is `t + usec * 1000`
whenever that sum is below `2 ^ 64`.  It is the deadline `nanosleep` requests
for the timespec `(usec div 10 ^ 6, (usec mod 10 ^ 6) * 1000)` at the same
reading, and the two calls leave the same kernel state. -/
theorem usleep_deadline (k : Kernel) (usec : Nat) (rem : Option timespec)
    (hu : usec < 2 ^ 32) :
    (usleep 1000 k usec).ret = 0
    ∧ (usleep 1000 k usec).kernel.sleeps = k.sleeps ++ [(k.now + usec * 1000) % 2 ^ 64]
    ∧ (k.now + usec * 1000 < 2 ^ 64 →
        (usleep 1000 k usec).kernel.sleeps = k.sleeps ++ [k.now + usec * 1000])
    ∧ (usleep 1000 k usec).kernel.reads = k.reads + 1
    ∧ ∃ r, nanosleep k
          (some ⟨((usec / 1000000 : Nat) : Int), ((usec % 1000000 * 1000 : Nat) : Int)⟩) rem
        = some r
      ∧ r.ret = (usleep 1000 k usec).ret
      ∧ r.kernel.sleeps = (usleep 1000 k usec).kernel.sleeps
      ∧ r.kernel.now = (usleep 1000 k usec).kernel.now
      ∧ r.kernel.reads = (usleep 1000 k usec).kernel.reads
      ∧ r.kernel.errno = (usleep 1000 k usec).kernel.errno := by
  have hprod : usec * 1000 % 2 ^ 64 = usec * 1000 := Nat.mod_eq_of_lt (by omega)
  have hconv : convert ⟨((usec / 1000000 : Nat) : Int), ((usec % 1000000 * 1000 : Nat) : Int)⟩
      = usec * 1000 := by
    have h := convert_of_fits
      ⟨((usec / 1000000 : Nat) : Int), ((usec % 1000000 * 1000 : Nat) : Int)⟩
      (by dsimp only; omega) (by dsimp only; omega)
    dsimp only at h
    omega
  have hs : (usleep 1000 k usec).kernel.sleeps
      = k.sleeps ++ [(k.now + usec * 1000) % 2 ^ 64] := by
    simp [usleep, Kernel.time, Kernel.sleep_until, hprod]
  refine ⟨by simp [usleep], hs, ?_, by simp [usleep, Kernel.time, Kernel.sleep_until], ?_⟩
  · intro hlt
    rw [hs, Nat.mod_eq_of_lt hlt]
  · refine ⟨⟨0, rem, k.time.2.sleep_until ((k.time.1 + convert
        ⟨((usec / 1000000 : Nat) : Int), ((usec % 1000000 * 1000 : Nat) : Int)⟩) % 2 ^ 64)⟩,
      ?_, ?_, ?_, ?_, ?_, ?_⟩
    · simp [nanosleep]
    · simp [usleep]
    · rw [hconv]
      simp [usleep, Kernel.time, Kernel.sleep_until, hprod]
    · rw [hconv]
      simp [usleep, Kernel.time, Kernel.sleep_until, hprod]
    · simp [usleep, Kernel.time, Kernel.sleep_until]
    · simp [usleep, Kernel.time, Kernel.sleep_until]

/-- C19, amended, at a sleep of five seconds, whose nanosecond count does not
fit 32 bits. -/
theorem usleep_deadline_witness :
    (usleep 1000 (kernelAt 1700000000123456789) 5000000).ret = 0
    ∧ (usleep 1000 (kernelAt 1700000000123456789) 5000000).kernel.sleeps
        = [1700000005123456789] := by
  have h := usleep_deadline (kernelAt 1700000000123456789) 5000000 none (by decide)
  refine ⟨h.1, ?_⟩
  have h3 := h.2.2.1 (by decide)
  rw [h3]
  decide

/-- C20: for every clock reading `t < 2 ^ 64`, `convert` applied to the timespec
that `clock_gettime(CLOCK_REALTIME, ts)` writes at the reading `t` gives back
`t`, the product `tv_sec * 1000000000` and the sum being taken in 64 bits. -/
theorem convert_clock_gettime_roundtrip (k : Kernel) (old : timespec)
    (ht : k.now < 2 ^ 64) :
    ∃ r ts, clock_gettime k CLOCK_REALTIME (some old) = some r
      ∧ r.out = some ts ∧ convert ts = k.now := by
  have hsec : toLong (k.now / 1000000000) = ((k.now / 1000000000 : Nat) : Int) :=
    toLong_of_lt _ (by omega)
  have hnsec : toLong (k.now % 1000000000) = ((k.now % 1000000000 : Nat) : Int) :=
    toLong_of_lt _ (by omega)
  refine ⟨⟨0, some ⟨toLong (k.now / 1000000000), toLong (k.now % 1000000000)⟩, k.time.2⟩,
    _, by simp [clock_gettime, Kernel.time], rfl, ?_⟩
  have h := convert_of_fits ⟨toLong (k.now / 1000000000), toLong (k.now % 1000000000)⟩
    (by rw [hsec, hnsec]; dsimp only; omega) (by rw [hsec, hnsec]; dsimp only; omega)
  rw [hsec, hnsec] at h ⊢
  dsimp only at h
  omega

/-- C20, at a reading above `2 ^ 63`, where `tv_sec * 1000000000` exceeds the
signed 64-bit range. -/
theorem convert_clock_gettime_roundtrip_witness :
    ∃ r ts, clock_gettime (kernelAt (2 ^ 64 - 1)) CLOCK_REALTIME (some ⟨0, 0⟩) = some r
      ∧ r.out = some ts ∧ convert ts = (kernelAt (2 ^ 64 - 1)).now :=
  convert_clock_gettime_roundtrip (kernelAt (2 ^ 64 - 1)) ⟨0, 0⟩ (by decide)

/-! ## The diagnostics for a missing entry class and a missing entry method -/

/-- C16: once the runtime is created, a missing class `io/osv/RunJava` makes
`main` return 1 with the single diagnostic
`java.so: Can't find class io/osv/RunJava in /java/runjava.jar.`, which names the
class; a present class without the entry method makes it return 1 with the
single diagnostic `java.so: Can't find main() in class io/osv/RunJava.`; the two
texts differ. -/
theorem main_entry_diagnostics (env : Env) (argv : List String)
    (hget : env.lookup_function "JNI_GetDefaultJavaVMInitArgs" = true)
    (hcreate : env.lookup_function "JNI_CreateJavaVM" = true)
    (hstatus : creationStatus env argv = 0) :
    (env.FindClass RUNJAVA = false →
      (main env argv).outcome = Outcome.exit 1
        ∧ debugs (main env argv).trace
            = ["java.so: Can't find class io/osv/RunJava in /java/runjava.jar.\n"])
    ∧ (env.FindClass RUNJAVA = true →
        env.GetStaticMethodID RUNJAVA "main" "([Ljava/lang/String;)V" = false →
      (main env argv).outcome = Outcome.exit 1
        ∧ debugs (main env argv).trace
            = ["java.so: Can't find main() in class io/osv/RunJava.\n"])
    ∧ RUNJAVA = "io/osv/RunJava"
    ∧ "java.so: Can't find class io/osv/RunJava".data
        <+: "java.so: Can't find class io/osv/RunJava in /java/runjava.jar.\n".data
    ∧ "java.so: Can't find main() in class ".data
        <+: "java.so: Can't find main() in class io/osv/RunJava.\n".data
    ∧ "java.so: Can't find class io/osv/RunJava in /java/runjava.jar.\n"
        ≠ "java.so: Can't find main() in class io/osv/RunJava.\n" := by
  have hmsg1 : "java.so: Can't find class " ++ RUNJAVA ++ " in " ++ RUNJAVA_PATH ++ ".\n"
      = "java.so: Can't find class io/osv/RunJava in /java/runjava.jar.\n" := by decide
  have hmsg2 : "java.so: Can't find main() in class " ++ RUNJAVA ++ ".\n"
      = "java.so: Can't find main() in class io/osv/RunJava.\n" := by decide
  refine ⟨?_, ?_, by decide, by decide, by decide, by decide⟩
  · intro hc
    cases argv with
    | nil =>
      rw [creationStatus_nil] at hstatus
      rw [main_nil, hmsg1, hmsg2]
      simp [hget, hcreate, hstatus, hc, debugs]
    | cons a0 rest =>
      rw [main_cons, hmsg1, hmsg2]
      simp [hget, hcreate, hstatus, hc, debugs]
  · intro hc hm
    cases argv with
    | nil =>
      rw [creationStatus_nil] at hstatus
      rw [main_nil, hmsg1, hmsg2]
      simp [hget, hcreate, hstatus, hc, hm, debugs]
    | cons a0 rest =>
      rw [main_cons, hmsg1, hmsg2]
      simp [hget, hcreate, hstatus, hc, hm, debugs]

/-- C16, at an environment where the class is found and the entry method is
not. -/
theorem main_entry_diagnostics_witness :
    (main envNoMethod ["java", "-jar", "app.jar"]).outcome = Outcome.exit 1
    ∧ debugs (main envNoMethod ["java", "-jar", "app.jar"]).trace
        = ["java.so: Can't find main() in class io/osv/RunJava.\n"] :=
  (main_entry_diagnostics envNoMethod ["java", "-jar", "app.jar"]
    (by decide) (by decide) (by decide)).2.1 (by decide) (by decide)

end Osv
